import Mathlib

/-
  Shallow embedding of the SourcePawn v2 lexer (src/v2/lexer.cpp).

  The lexer's character-level cursor, token record, and the preprocessor
  facade live in headers that are not part of the visible sources; those
  pieces are modelled from the specification and are marked as such in
  their doc comments.  Everything else below is translated directly from
  lexer.cpp, including its dead stores and reachable assertions, which are
  recorded as ghost events so theorems can observe them.

  Machine integers are modelled as Nat with explicit bounds: the 64-bit
  checked arithmetic of handleNumber compares against 2^64, and byte/char
  wrap-arounds are taken modulo 256.
-/

namespace SpV2

/-- One past the largest uint64 value; the checked multiply/add helpers of
am-arithmetic succeed exactly when the mathematical result is below this. -/
def uint64Mod : Nat := 18446744073709551616

/-- INT_MAX, the sentinel returned by readEscapeCode for unknown escapes. -/
def intMax : Int := 2147483647

/-- A source location handle: a byte offset into the buffer, or unset. -/
abbrev Loc := Option Nat

/-- Token kinds used by the lexer (punctuators, literals, names, meta kinds
and the preprocessor directive keywords). -/
inductive TokenKind
| NONE
| EOL
| EOF
| UNKNOWN
| COMMENT
| SEMICOLON
| LBRACE
| RBRACE
| LPAREN
| RPAREN
| LBRACKET
| RBRACKET
| TILDE
| QMARK
| COLON
| COMMA
| DOT
| ELLIPSES
| SLASH
| ASSIGN_DIV
| STAR
| ASSIGN_MUL
| PLUS
| ASSIGN_ADD
| INCREMENT
| BITAND
| ASSIGN_BITAND
| AND
| BITOR
| ASSIGN_BITOR
| OR
| BITXOR
| ASSIGN_BITXOR
| PERCENT
| ASSIGN_MOD
| MINUS
| ASSIGN_SUB
| DECREMENT
| NOT
| NOTEQUALS
| ASSIGN
| EQUALS
| LT
| LE
| SHL
| ASSIGN_SHL
| GT
| GE
| SHR
| USHR
| ASSIGN_USHR
| INTEGER_LITERAL
| HEX_LITERAL
| FLOAT_LITERAL
| CHAR_LITERAL
| STRING_LITERAL
| NAME
| LABEL
| M_DEFINE
| M_UNDEF
| M_IF
| M_ELSE
| M_ENDIF
| M_ENDINPUT
| M_INCLUDE
| M_TRYINCLUDE
| M_PRAGMA
deriving DecidableEq, Repr

/-- Diagnostic message identifiers raised by the lexer. -/
inductive MsgId
| expected_digit_for_float
| int_literal_overflow
| unknown_escapecode
| invalid_char_literal
| bad_char_terminator
| unterminated_string
| unterminated_comment
| unexpected_char
| unknown_directive
| bad_directive_token
| pp_extra_characters
| else_without_if
| else_declared_twice
| endif_without_if
| unterminated_if
| unterminated_else
| bad_include_line -- models the source's include-syntax diagnostic id
| macro_functions_unsupported
| pragma_must_have_name
| bad_pragma_newdecls
| unknown_pragma
deriving DecidableEq, Repr

/-- How a diagnostic reached the reporter: through the Lexer::report wrapper
(which drops it when suppress_errors_ is set) or directly through cc_.report. -/
inductive DiagChannel
| viaReport
| viaCC
deriving DecidableEq, Repr

/-- One delivered diagnostic, with ghost data recording its channel and
whether suppress_errors_ was set at the moment it was recorded. -/
structure Diag where
  loc : Loc
  id : MsgId
  channel : DiagChannel
  inSuppressedScope : Bool
deriving DecidableEq, Repr

/-- Comment attribution positions handed to Preprocessor::addComment. -/
inductive CommentPos
| Front
| Tail
deriving DecidableEq, Repr

/-- States of a conditional-compilation context. -/
inductive IfState
| Active
| Inactive
| Ignoring
| Dead
deriving DecidableEq, Repr

/-- An entry of the lexer's if-stack: the directive's location, the region
state and the (at most one) location of a seen hash-else. -/
structure IfContext where
  first : Loc
  state : IfState
  elseloc : Loc
deriving DecidableEq, Repr

/-- Identifiers for the C assert() statements of lexer.cpp that this model
tracks; a failing assert is recorded as a ghost event. -/
inductive AssertId
| handleNumberDigit
| handleNumberDefault
| advanceLineChar
| scanNewlineDirective
| chewInDirective
| directiveNextInDirective
| handleIfContextAtEol
| afterIfContextActive
| commentsAfterNext
| tailThenFirstOnLine
| currentIfMissing
deriving DecidableEq, Repr

/-- A token position: a source location plus a 1-based line number.  A fresh
TokenPos has an unset location and line 0, as in the source's default
constructor. -/
structure TokenPos where
  loc : Loc := none
  line : Nat := 0
deriving DecidableEq, Repr

/-- Modelled from the spec: the token value record.  It carries a kind, start
and end positions, and one payload chosen by the kind (unsigned 64-bit
integer, 32-bit char, float, or interned atom).  `endp` models the source's
`end` field.  Interned atoms are modelled as the raw byte lists; the float
payload stores the undecoded literal, since the hand-rolled double decoder is
outside the scope of the claims. -/
structure Token where
  kind : TokenKind := .NONE
  start : TokenPos := {}
  endp : TokenPos := {}
  intValue : Option Nat := none
  charValue : Option Int := none
  floatRaw : Option (List Char) := none
  atom : Option (List Char) := none
deriving DecidableEq, Repr

/-- Modelled from the spec: Token::init sets the start position and stream id
and leaves the payload unset; the end position is not touched (tokens are
reused across scans, so `endp` keeps its previous value until rewritten). -/
def Token.initTok (tok : Token) (p : TokenPos) : Token :=
  { tok with start := p, intValue := none, charValue := none,
             floatRaw := none, atom := none }

/-- The full lexer state: the source cursor, scanner flags, the scratch
literal buffer, the if-stack, plus the externally observable streams
(diagnostics, comment attributions) and ghost instrumentation (elseloc write
trace, failed asserts, macro/file events, an out-of-fuel marker). -/
structure LexState where
  input : List Char
  pos : Nat
  line : Nat
  lexingForDirective : Bool
  suppressErrors : Bool
  lexedTokensOnLine : Bool
  literal : List Char
  ifstack : List IfContext
  traceComments : Bool
  requireNewdecls : Bool
  macroExpansion : Bool
  macros : List (List Char)
  diags : List Diag
  comments : List (CommentPos × Loc × Loc)
  elseWrites : List Loc
  assertFails : List AssertId
  macroEntered : List (List Char)
  enteredFiles : List (List Char)
  deprecations : List (Nat × Nat)
  pragmaDynamics : List Int
  fuelOutFlag : Bool
deriving DecidableEq, Repr

/-- The initial lexer state over a pre-materialised buffer, as set up by the
Lexer constructor: cursor at the start, line 1, all flags clear. -/
def initState (input : List Char) (trace : Bool) : LexState :=
  { input := input, pos := 0, line := 1, lexingForDirective := false,
    suppressErrors := false, lexedTokensOnLine := false, literal := [],
    ifstack := [], traceComments := trace, requireNewdecls := false,
    macroExpansion := true, macros := [], diags := [], comments := [],
    elseWrites := [], assertFails := [], macroEntered := [],
    enteredFiles := [], deprecations := [], pragmaDynamics := [],
    fuelOutFlag := false }

/-- Ghost marker set when an interpreter loop runs out of fuel; every
verified run is shown to keep it false. -/
def LexState.fuelOut (s : LexState) : LexState :=
  { s with fuelOutFlag := true }

/-- Modelled from the spec: read_char advances the cursor and returns the
byte, yielding a NUL sentinel at the end of the buffer; after the sentinel
the cursor sits one past the end so that the single-byte backup used
throughout the scanner restores it to the end. -/
def LexState.readChar (s : LexState) : Char × LexState :=
  if s.pos < s.input.length then
    (s.input.getD s.pos '\x00', { s with pos := s.pos + 1 })
  else
    ('\x00', { s with pos := s.input.length + 1 })

/-- Modelled from the spec: peek_char returns the byte at the cursor without
advancing, with the NUL sentinel at the end. -/
def LexState.peekChar (s : LexState) : Char :=
  if s.pos < s.input.length then s.input.getD s.pos '\x00' else '\x00'

/-- The single-byte backup `pos_ -= 1`. -/
def LexState.unread (s : LexState) : LexState :=
  { s with pos := s.pos - 1 }

/-- Modelled from the spec: match_char consumes the next byte iff it equals
the expected one. -/
def LexState.matchChar (s : LexState) (c : Char) : Bool × LexState :=
  if s.peekChar = c then
    let (_, s) := s.readChar
    (true, s)
  else (false, s)

/-- pos(): the location handle of the current cursor position. -/
def LexState.curLoc (s : LexState) : Loc := some s.pos

/-- lastpos(): the location handle of the byte just read. -/
def LexState.lastLoc (s : LexState) : Loc := some (s.pos - 1)

/-- Lexer::report — the wrapper that silently discards the diagnostic while
suppress_errors_ is set, and otherwise forwards it to the compile context. -/
def LexState.report (s : LexState) (loc : Loc) (id : MsgId) : LexState :=
  if s.suppressErrors then s
  else { s with diags := s.diags ++ [⟨loc, id, .viaReport, false⟩] }

/-- A direct cc_.report call, which bypasses the suppress_errors_ check; the
ghost flag records whether it fired inside a suppressed scope. -/
def LexState.ccReport (s : LexState) (loc : Loc) (id : MsgId) : LexState :=
  { s with diags := s.diags ++ [⟨loc, id, .viaCC, s.suppressErrors⟩] }

/-- A C assert(): a ghost event is recorded when the condition is false. -/
def LexState.checkAssert (s : LexState) (p : Prop) [Decidable p]
    (id : AssertId) : LexState :=
  if p then s else { s with assertFails := s.assertFails ++ [id] }

/-- literal_.clear(). -/
def LexState.clearLit (s : LexState) : LexState :=
  { s with literal := [] }

/-- literal_.append(c). -/
def LexState.appendLit (s : LexState) (c : Char) : LexState :=
  { s with literal := s.literal ++ [c] }

/-- literal_.append(NUL): the scratch buffer is modelled without its trailing
NUL terminator, matching literal() with literal_length(). -/
def LexState.appendLitNul (s : LexState) : LexState := s

/-- currentIf(): the innermost if-context, if any (the stack grows at the
back of the list). -/
def LexState.currentIf (s : LexState) : Option IfContext :=
  s.ifstack.getLast?

/-- The state of the innermost if-context, if any. -/
def LexState.currentIfState (s : LexState) : Option IfState :=
  (s.currentIf).map (fun ix => ix.state)

/-- An assignment `ix->elseloc = begin` on the innermost context; the ghost
trace elseWrites records every such store. -/
def LexState.writeElseLoc (s : LexState) (loc : Loc) : LexState :=
  { s with
    ifstack := s.ifstack.dropLast ++
      (match s.ifstack.getLast? with
       | none => []
       | some ix => [{ ix with elseloc := loc }]),
    elseWrites := s.elseWrites ++ [loc] }

/-- An assignment `ix->state = st` on the innermost context. -/
def LexState.setTopState (s : LexState) (st : IfState) : LexState :=
  { s with
    ifstack := s.ifstack.dropLast ++
      (match s.ifstack.getLast? with
       | none => []
       | some ix => [{ ix with state := st }]) }

/-- IsDigit: c >= '0' && c <= '9' (ASCII 48..57). -/
def IsDigit (c : Char) : Bool := decide (48 ≤ c.toNat ∧ c.toNat ≤ 57)

/-- IsHexDigit: a decimal digit or a..f (97..102) or A..F (65..70). -/
def IsHexDigit (c : Char) : Bool :=
  IsDigit c || decide (97 ≤ c.toNat ∧ c.toNat ≤ 102)
    || decide (65 ≤ c.toNat ∧ c.toNat ≤ 70)

/-- IsLineTerminator: LF, CR or NUL. -/
def IsLineTerminator (c : Char) : Bool :=
  decide (c = '\n' ∨ c = '\r' ∨ c = '\x00')

/-- IsSkipSpace: space, tab or form feed. -/
def IsSkipSpace (c : Char) : Bool :=
  decide (c = ' ' ∨ c = '\t' ∨ c = '\x0c')

/-- IsIdentStart: a..z (97..122), A..Z (65..90) or underscore. -/
def IsIdentStart (c : Char) : Bool :=
  decide (97 ≤ c.toNat ∧ c.toNat ≤ 122)
    || decide (65 ≤ c.toNat ∧ c.toNat ≤ 90)
    || decide (c = '_')

/-- IsIdentChar: an identifier-start character or a decimal digit. -/
def IsIdentChar (c : Char) : Bool :=
  IsIdentStart c || decide (48 ≤ c.toNat ∧ c.toNat ≤ 57)

/-- tolower on the ASCII letters, as used by the hex escape decoder. -/
def toLowerChar (c : Char) : Char :=
  if 65 ≤ c.toNat ∧ c.toNat ≤ 90 then Char.ofNat (c.toNat + 32) else c

/-- HexDigitToValue: the numeric value of a hex digit character. -/
def HexDigitToValue (c : Char) : Nat :=
  if IsDigit c then c.toNat - 48
  else if 97 ≤ c.toNat then (c.toNat - 97) + 10
  else (c.toNat - 65) + 10

/-- The C cast of an int escape value back to a byte stored in the string
literal buffer. -/
def charOfCode (i : Int) : Char :=
  Char.ofNat (((i % 256 + 256) % 256).toNat % 256)

/-- Signed-char wrap-around for the \ddd escape accumulator. -/
def wrapSByte (x : Int) : Int :=
  ((x + 128) % 256 + 256) % 256 - 128

/-- Modelled from the spec: Preprocessor::findKeyword classifies an interned
atom; the keyword set contains the directive tokens (the directive name is
scanned together with its leading hash).  Plain identifiers map to NONE.
None of the verified inputs contain language-level keywords, so only the
directive entries are modelled. -/
def findKeyword (a : List Char) : TokenKind :=
  if a = "#define".toList then .M_DEFINE
  else if a = "#undef".toList then .M_UNDEF
  else if a = "#if".toList then .M_IF
  else if a = "#else".toList then .M_ELSE
  else if a = "#endif".toList then .M_ENDIF
  else if a = "#endinput".toList then .M_ENDINPUT
  else if a = "#include".toList then .M_INCLUDE
  else if a = "#tryinclude".toList then .M_TRYINCLUDE
  else if a = "#pragma".toList then .M_PRAGMA
  else .NONE

/-- Modelled from the spec: Preprocessor::enterMacro pushes the macro body as
a virtual source iff the atom names a defined macro.  The virtual-source push
itself is outside this embedding; a ghost event records any entry, and every
verified run keeps the macro table empty so the push is never taken. -/
def LexState.enterMacroAtom (s : LexState) (a : List Char) : Bool × LexState :=
  if a ∈ s.macros then
    (true, { s with macroEntered := s.macroEntered ++ [a] })
  else (false, s)

/-- Modelled from the spec: Preprocessor::defineMacro registers a replacement
list keyed by atom; only the key is needed by the claims. -/
def LexState.defineMacroAtom (s : LexState) (a : List Char) : LexState :=
  { s with macros := s.macros ++ [a] }

/-- Modelled from the spec: Preprocessor::removeMacro drops the macro and
returns whether it was defined. -/
def LexState.removeMacroAtom (s : LexState) (a : List Char) :
    LexState × Bool :=
  ({ s with macros := s.macros.filter (fun m => m ≠ a) },
   decide (a ∈ s.macros))

/-- Modelled from the spec: Preprocessor::handleEndOfFile resumes an outer
file if one is on the file stack; with a single buffer it returns false. -/
def ppHandleEndOfFile : Bool := false

/-- Modelled from the spec: Preprocessor::addComment records an attributed
comment block with its position class and source range. -/
def LexState.addCommentRange (s : LexState) (cp : CommentPos)
    (l1 l2 : Loc) : LexState :=
  { s with comments := s.comments ++ [(cp, l1, l2)] }

/-- Modelled from the spec: Preprocessor::enterFile pushes a new lexer for
the include target; recorded as a ghost event. -/
def LexState.enterFileGhost (s : LexState) (nm : List Char) : LexState :=
  { s with enteredFiles := s.enteredFiles ++ [nm] }

/-- Modelled from the spec: Preprocessor::setNextDeprecationMessage stores
the byte range of the deprecation text; recorded as a ghost event. -/
def LexState.setDeprecationGhost (s : LexState) (b e : Nat) : LexState :=
  { s with deprecations := s.deprecations ++ [(b, e)] }

/-- Modelled from the spec: CompileContext::ChangePragmaDynamic records a
requested dynamic heap size; recorded as a ghost event. -/
def LexState.changePragmaDynamicGhost (s : LexState) (v : Int) :
    LexState × Bool :=
  ({ s with pragmaDynamics := s.pragmaDynamics ++ [v] }, true)

/-- The loop of skipSpaces: consume bytes while they are skip-spaces. -/
def skipSpacesLoop : Nat → LexState → LexState
  | 0, s => s.fuelOut
  | f+1, s =>
    if IsSkipSpace s.peekChar then
      let (_, s) := s.readChar
      skipSpacesLoop f s
    else s

/-- Lexer::skipSpaces: skip spaces and return ptr(). -/
def LexState.skipSpaces (s : LexState) : Nat × LexState :=
  let s := skipSpacesLoop (s.input.length + 2) s
  (s.pos, s)

/-- The loop of firstNonSpaceChar. -/
def fnscLoop : Nat → LexState → Char × LexState
  | 0, s => ('\x00', s.fuelOut)
  | f+1, s =>
    let (c, s) := s.readChar
    if IsSkipSpace c then fnscLoop f s else (c, s)

/-- Lexer::firstNonSpaceChar: read characters until a non-skip-space. -/
def LexState.firstNonSpaceChar (s : LexState) : Char × LexState :=
  fnscLoop (s.input.length + 2) s

/-- The consuming loop shared by readUntilEnd and singleLineComment: read
until the peeked character is a line terminator. -/
def readToEolLoop : Nat → LexState → LexState
  | 0, s => s.fuelOut
  | f+1, s =>
    if IsLineTerminator s.peekChar then s
    else
      let (_, s) := s.readChar
      readToEolLoop f s

/-- The backwards trim of readUntilEnd over the captured slice. -/
def rueTrimLoop : Nat → Nat → Nat → List Char → Nat
  | 0, e, _, _ => e
  | f+1, e, b, input =>
    if e > b then
      let ch := input.getD e ' '
      if ¬ (IsSkipSpace ch) ∧ ¬ (IsLineTerminator ch) then e
      else rueTrimLoop f (e - 1) b input
    else e

/-- Lexer::readUntilEnd: skip leading spaces, consume to the line end, and
trim trailing spaces/terminators; returns the half-open byte range. -/
def LexState.readUntilEnd (s : LexState) : Nat × Nat × LexState :=
  let (b, s) := s.skipSpaces
  let s := readToEolLoop (s.input.length + 2) s
  let e := rueTrimLoop (s.input.length + 2) s.pos b s.input
  (b, e + 1, s)

/-- The digit-collecting loop of hexLiteral: append hex digits, backing up
one byte at the first non-hex-digit. -/
def hexDigitsLoop : Nat → LexState → LexState
  | 0, s => s.fuelOut
  | f+1, s =>
    let (c, s1) := s.readChar
    if IsHexDigit c then hexDigitsLoop f (s1.appendLit c)
    else s1.unread

/-- Lexer::hexLiteral: clear the scratch buffer, collect hex digits, and
produce TOK_HEX_LITERAL. -/
def LexState.hexLiteral (s : LexState) : LexState × TokenKind :=
  let s := s.clearLit
  let s := hexDigitsLoop (s.input.length + 2) s
  (s.appendLitNul, .HEX_LITERAL)

/-- The first digit loop of numberLiteral: collect decimal digits and return
the first non-digit (consumed, to be examined by the caller). -/
def numDigitsLoop : Nat → LexState → Char × LexState
  | 0, s => ('\x00', s.fuelOut)
  | f+1, s =>
    let (c, s1) := s.readChar
    if IsDigit c then numDigitsLoop f (s1.appendLit c)
    else (c, s1)

/-- The later digit loops of numberLiteral (fraction and exponent): collect
decimal digits, backing up at the first non-digit, which is also returned
unconsumed for the caller to inspect. -/
def fracDigitsLoop : Nat → LexState → Char × LexState
  | 0, s => ('\x00', s.fuelOut)
  | f+1, s =>
    let (c, s1) := s.readChar
    if IsDigit c then fracDigitsLoop f (s1.appendLit c)
    else (c, s1.unread)

/-- The continuation of Lexer::numberLiteral after its leading digit loop:
the hexadecimal detection and the float scanning, taking the first
non-digit character read by the loop. -/
def numberLiteralTail (c : Char) (s : LexState) : LexState × TokenKind :=
  if s.literal.length = 1 ∧ s.literal.getD 0 ' ' = '0' ∧ (c = 'x' ∨ c = 'X')
  then
    s.hexLiteral
  else if c ≠ '.' then
    ((s.unread).appendLitNul, .INTEGER_LITERAL)
  else
  let s := s.appendLit c
  let (c, s) := s.readChar
  if ¬ (IsDigit c) then
    (s.ccReport s.curLoc .expected_digit_for_float, .UNKNOWN)
  else
  let s := s.appendLit c
  let (c, s) := fracDigitsLoop (s.input.length + 2) s
  let (m, s) := s.matchChar 'e'
  if ¬ m then (s.appendLitNul, .FLOAT_LITERAL)
  else
  let s := s.appendLit c
  let (c, s) := s.readChar
  let (c, s) :=
    if c = '-' then
      let s := s.appendLit c
      s.readChar
    else (c, s)
  if ¬ (IsDigit c) then
    let s := s.unread
    (s.ccReport s.curLoc .expected_digit_for_float, .UNKNOWN)
  else
  let s := s.appendLit c
  let (_, s) := fracDigitsLoop (s.input.length + 2) s
  (s.appendLitNul, .FLOAT_LITERAL)

/-- Lexer::numberLiteral: scan an integer, hex, or float literal starting
from its first digit; malformed floats report expected_digit_for_float
through cc_.report and yield TOK_UNKNOWN. -/
def LexState.numberLiteral (s : LexState) (first : Char) :
    LexState × TokenKind :=
  let s := (s.clearLit).appendLit first
  let (c, s) := numDigitsLoop (s.input.length + 2) s
  numberLiteralTail c s

/-- The decode loop of handleNumber's TOK_INTEGER_LITERAL case: checked
multiply-by-10 and add over the captured digits; overflow reports
int_literal_overflow (through the suppressible wrapper) and stops. -/
def intDecodeLoop : List Char → Nat → Loc → LexState → LexState × Nat
  | [], v, _, s => (s, v)
  | c :: rest, v, startLoc, s =>
    let s := s.checkAssert (IsDigit c = true) .handleNumberDigit
    if v * 10 ≥ uint64Mod then
      (s.report startLoc .int_literal_overflow, v)
    else
      let v := v * 10
      if v + (c.toNat - 48) ≥ uint64Mod then
        (s.report startLoc .int_literal_overflow, v)
      else intDecodeLoop rest (v + (c.toNat - 48)) startLoc s

/-- The decode loop of handleNumber's TOK_HEX_LITERAL case.  As in the
source, the accumulator is multiplied by 10 — not 16 — before each hex digit
value is added. -/
def hexDecodeLoop : List Char → Nat → Loc → LexState → LexState × Nat
  | [], v, _, s => (s, v)
  | c :: rest, v, startLoc, s =>
    let d := HexDigitToValue c
    if v * 10 ≥ uint64Mod then
      (s.report startLoc .int_literal_overflow, v)
    else
      let v := v * 10
      if v + d ≥ uint64Mod then
        (s.report startLoc .int_literal_overflow, v)
      else hexDecodeLoop rest (v + d) startLoc s

/-- Lexer::handleNumber: scan a number literal and decode its payload; the
switch has no case for TOK_UNKNOWN, so that value reaches assert(false). -/
def LexState.handleNumber (s : LexState) (tok : Token) (first : Char) :
    LexState × Token × TokenKind :=
  let (s, kind) := s.numberLiteral first
  if kind = .INTEGER_LITERAL then
    let (s, val) := intDecodeLoop s.literal 0 tok.start.loc s
    (s, { tok with intValue := some val }, kind)
  else if kind = .HEX_LITERAL then
    let (s, val) := hexDecodeLoop s.literal 0 tok.start.loc s
    (s, { tok with intValue := some val }, kind)
  else if kind = .FLOAT_LITERAL then
    (s, { tok with floatRaw := some s.literal }, kind)
  else
    (s.checkAssert False .handleNumberDefault, tok, kind)

/-- The identifier-character loop of Lexer::name. -/
def nameLoop : Nat → LexState → LexState
  | 0, s => s.fuelOut
  | f+1, s =>
    let (c, s1) := s.readChar
    if IsIdentChar c then nameLoop f (s1.appendLit c)
    else s1.unread

/-- Lexer::name: collect an identifier into the scratch buffer. -/
def LexState.name (s : LexState) (first : Char) : LexState × TokenKind :=
  let s := (s.clearLit).appendLit first
  let s := nameLoop (s.input.length + 2) s
  (s.appendLitNul, .NAME)

/-- Lexer::maybeKeyword: read a name and classify it via the keyword table. -/
def LexState.maybeKeyword (s : LexState) (first : Char) :
    LexState × TokenKind :=
  let (s, _) := s.name first
  (s, findKeyword s.literal)

/-- The \x escape loop.  As in the source, the shifted hex value is stored
back into the working character, which the subsequent readChar immediately
overwrites — the stores are dead and the hex payload never reaches `r`. -/
def xEscapeLoop : Nat → Nat → Char → LexState → Char × LexState
  | 0, _, c, s => (c, s.fuelOut)
  | f+1, digits, c, s =>
    if IsHexDigit c ∧ digits < 2 then
      let c := if IsDigit c then
          Char.ofNat ((c.toNat * 16 + (c.toNat - 48)) % 256)
        else
          Char.ofNat ((c.toNat * 16 + ((toLowerChar c).toNat - 97 + 10)) % 256)
      let (c, s) := s.readChar
      xEscapeLoop f (digits + 1) c s
    else (c, s)

/-- The \ddd escape loop: decimal accumulation into a char-sized value, then
the optional trailing semicolon is swallowed. -/
def decEscapeLoop : Nat → Int → Char → LexState → Int × LexState
  | 0, r, _, s => (r, s.fuelOut)
  | f+1, r, c, s =>
    if IsDigit c then
      let r := wrapSByte (r * 10 + ((c.toNat : Int) - 48))
      let (c, s) := s.readChar
      decEscapeLoop f r c s
    else
      let s := if c ≠ ';' then s.unread else s
      (r, s)

/-- Lexer::readEscapeCode: decode one escape sequence, returning its numeric
value, or INT_MAX after reporting unknown_escapecode (through cc_.report). -/
def LexState.readEscapeCode (s : LexState) : Int × LexState :=
  let (c, s) := s.readChar
  if c = '\\' then ((c.toNat : Int), s)
  else if c = 'a' then (7, s)
  else if c = 'b' then (8, s)
  else if c = 'e' then (27, s)
  else if c = 'f' then (12, s)
  else if c = 'n' then (10, s)
  else if c = 'r' then (13, s)
  else if c = 't' then (9, s)
  else if c = 'v' then (11, s)
  else if c = 'x' then
    let r : Int := 0
    let (c, s) := s.readChar
    let (c, s) := xEscapeLoop (s.input.length + 2) 0 c s
    let s := if c ≠ ';' then s.unread else s
    (r, s)
  else if c = '\'' ∨ c = '"' ∨ c = '%' then ((c.toNat : Int), s)
  else if IsDigit c then
    decEscapeLoop (s.input.length + 2) 0 c s
  else
    (intMax, s.ccReport s.lastLoc .unknown_escapecode)

/-- Lexer::charLiteral: scan a character literal; empty literals report
invalid_char_literal, bad terminators report bad_char_terminator (both
through the suppressible wrapper). -/
def LexState.charLiteral (s : LexState) (tok : Token) :
    LexState × Token × TokenKind :=
  let (c, s) := s.readChar
  if c = '\'' then
    (s.report tok.start.loc .invalid_char_literal, tok, .UNKNOWN)
  else
  let tok := { tok with kind := .CHAR_LITERAL }
  let (tok, s) :=
    if c = '\\' then
      let (code, s) := s.readEscapeCode
      ({ tok with charValue := some code }, s)
    else ({ tok with charValue := some (c.toNat : Int) }, s)
  let (c, s) := s.readChar
  let s :=
    if c ≠ '\'' then
      let s := s.report tok.start.loc .bad_char_terminator
      if c ≠ '"' then s.unread else s
    else s
  (s, tok, tok.kind)

/-- The accumulation loop of stringLiteral: bytes are appended until the
closing quote; CR, LF or NUL reports unterminated_string through cc_.report
and returns TOK_STRING_LITERAL without setting the token's atom. -/
def stringLitLoop : Nat → LexState → Token → LexState × Token × TokenKind
  | 0, s, tok => (s.fuelOut, tok, .UNKNOWN)
  | f+1, s, tok =>
    let (c, s) := s.readChar
    if c = '"' then
      let s := s.appendLitNul
      let tok := { tok with atom := some s.literal }
      (s, tok, .STRING_LITERAL)
    else if c = '\r' ∨ c = '\n' ∨ c = '\x00' then
      (s.ccReport tok.start.loc .unterminated_string, tok, .STRING_LITERAL)
    else if c = '\\' then
      let (code, s) := s.readEscapeCode
      let code := if code = intMax then (('?'.toNat : Int)) else code
      stringLitLoop f (s.appendLit (charOfCode code)) tok
    else
      stringLitLoop f (s.appendLit c) tok

/-- Lexer::stringLiteral: scan a string literal body into the scratch buffer
and intern it as the token's atom on success. -/
def LexState.stringLiteral (s : LexState) (tok : Token) :
    LexState × Token × TokenKind :=
  stringLitLoop (s.input.length + 2) (s.clearLit) tok

/-- Lexer::handleIdentifier, after the macro-expansion gate: keyword lookup,
then label detection, then a plain name. -/
def handleIdentifierTail (s : LexState) (tok : Token) (atom : List Char) :
    LexState × Token × TokenKind :=
  let kind := findKeyword atom
  if kind ≠ .NONE then (s, tok, kind)
  else
    let (m, s) := s.matchChar ':'
    if m then (s, tok, .LABEL) else (s, tok, .NAME)

/-- Lexer::handleIdentifier: read a name, intern it, and either enter a
macro (yielding TOK_NONE) or classify it as keyword, label or name. -/
def LexState.handleIdentifier (s : LexState) (tok : Token) (first : Char) :
    LexState × Token × TokenKind :=
  let (s, _) := s.name first
  let atom := s.literal
  let tok := { tok with atom := some atom }
  if s.macroExpansion then
    let (entered, s) := s.enterMacroAtom atom
    if entered then
      ({ s with lexedTokensOnLine := true }, tok, .NONE)
    else handleIdentifierTail s tok atom
  else handleIdentifierTail s tok atom

/-- Lexer::advanceLine: normalise a CRLF pair, bump the line counter and
reset the tokens-on-line flag.  The source asserts its argument is CR/LF. -/
def LexState.advanceLine (s : LexState) (c : Char) : LexState :=
  let s := s.checkAssert (c = '\r' ∨ c = '\n') .advanceLineChar
  let s :=
    if c = '\r' then
      let (c2, s) := s.readChar
      if c2 ≠ '\n' then s.unread else s
    else s
  { s with line := s.line + 1, lexedTokensOnLine := false }

/-- Lexer::singleLineComment: consume to the line end and stamp the token's
end position eagerly. -/
def LexState.singleLineComment (s : LexState) (tok : Token) :
    LexState × Token × TokenKind :=
  let s := readToEolLoop (s.input.length + 2) s
  let tok := { tok with kind := .COMMENT,
                        endp := { loc := s.curLoc, line := s.line } }
  (s, tok, .COMMENT)

/-- The consuming loop of multiLineComment: advance lines inside the
comment; EOF reports unterminated_comment through cc_.report. -/
def mlcLoop : Nat → LexState → Loc → LexState
  | 0, s, _ => s.fuelOut
  | f+1, s, startLoc =>
    let (c, s) := s.readChar
    if c = '\r' ∨ c = '\n' then mlcLoop f (s.advanceLine c) startLoc
    else if c = '\x00' then s.ccReport startLoc .unterminated_comment
    else if c = '*' then
      let (m, s) := s.matchChar '/'
      if m then s else mlcLoop f s startLoc
    else mlcLoop f s startLoc

/-- Lexer::multiLineComment: consume through the closing star-slash and
stamp the token's end position eagerly. -/
def LexState.multiLineComment (s : LexState) (tok : Token) :
    LexState × Token × TokenKind :=
  let s := mlcLoop (s.input.length + 2) s tok.start.loc
  let tok := { tok with kind := .COMMENT,
                        endp := { loc := s.curLoc, line := s.line } }
  (s, tok, .COMMENT)

/-- The loop of consumeWhitespace: eat spaces and, outside directive mode,
newlines; in directive mode a newline is left unconsumed and returned. -/
def cwLoop : Nat → LexState → Char × LexState
  | 0, s => ('\x00', s.fuelOut)
  | f+1, s =>
    let (c, s) := s.readChar
    if c = '\n' ∨ c = '\r' then
      if s.lexingForDirective then (c, s.unread)
      else cwLoop f (s.advanceLine c)
    else if c = ' ' ∨ c = '\t' ∨ c = '\x0c' then cwLoop f s
    else (c, s)

/-- Lexer::consumeWhitespace. -/
def LexState.consumeWhitespace (s : LexState) : Char × LexState :=
  cwLoop (s.input.length + 2) s

/-- The skip of the inactive-region engine: `while (!IsLineTerminator(c))
c = readChar();` starting from an already-read character. -/
def skipToTerminator : Nat → Char → LexState → Char × LexState
  | 0, c, s => (c, s.fuelOut)
  | f+1, c, s =>
    if IsLineTerminator c then (c, s)
    else
      let (c, s) := s.readChar
      skipToTerminator f c s

/-- The filename-collecting loop of the include directives: fails with
bad_include_syntax (via the suppressible wrapper) at a line terminator,
otherwise collects bytes until the closing delimiter. -/
def includeLitLoop : Nat → Char → LexState → LexState × Bool
  | 0, _, s => (s.fuelOut, false)
  | f+1, mtch, s =>
    if IsLineTerminator s.peekChar then
      (s.report s.lastLoc .bad_include_line, false)
    else
      let (c, s) := s.readChar
      if c = mtch then (s, true)
      else includeLitLoop f mtch (s.appendLit c)

/-- The commit step of processFrontCommentBlock: a block whose end was
never set is discarded. -/
def pfcCommit (s : LexState) (tok : Token) (startP endP : TokenPos) :
    LexState × Token :=
  if endP.loc = none then (s, tok)
  else (s.addCommentRange .Front startP.loc endP.loc, tok)

/-- One fuel level of the mutually recursive scanner/directive routines of
the lexer: scan, directive handling, the skip engine, comment attribution
and next.  Level f+1 of the interpreter implements each routine by calling
the level-f routines, exactly as the call graph of lexer.cpp recurses. -/
structure Interp where
  scan : LexState → Token → LexState × Token × TokenKind
  dnLoop : LexState → Token → LexState × Token × TokenKind
  directiveNext : LexState → Token → LexState × Token × TokenKind
  chewLoop : Bool → Bool → LexState → LexState
  chewLineAfterDirective : Bool → LexState → LexState
  ppEvalLoop : LexState → Option Int → Bool → LexState × Option Int × Bool
  ppEval : LexState → LexState × Int × Bool
  gmtLoop : LexState → List Token → LexState × List Token
  getMacroTokens : LexState → LexState × List Token
  handlePreprocessorDirective : LexState → LexState × Bool
  handleDirectiveWhileInactive : LexState → LexState
  ifSkipAfter : Char → LexState → LexState
  ifSkipLoop : LexState → LexState
  handleIfContext : LexState → LexState
  enterPreprocessorDirective : LexState → LexState
  ptcLoop : LexState → Token → TokenPos → TokenPos → LexState × Token
  processTailCommentBlock : LexState → Token → LexState × Token
  pfcLoop : LexState → Token → TokenPos → TokenPos → TokenPos →
    LexState × Token
  processFrontCommentBlock : LexState → Token → LexState × Token
  skipCommentsLoop : LexState → Token → LexState × Token
  frontBlocksLoop : LexState → Token → LexState × Token
  handleComments : LexState → Token → LexState × Token
  next : LexState → Token → LexState × Token × TokenKind

/-- The out-of-fuel interpreter: every routine marks the ghost flag and
returns without progress; no verified run ever reaches it. -/
def interpZero : Interp where
  scan := fun s tok => (s.fuelOut, tok, .UNKNOWN)
  dnLoop := fun s tok => (s.fuelOut, tok, .UNKNOWN)
  directiveNext := fun s tok => (s.fuelOut, tok, .UNKNOWN)
  chewLoop := fun _ _ s => s.fuelOut
  chewLineAfterDirective := fun _ s => s.fuelOut
  ppEvalLoop := fun s acc multi => (s.fuelOut, acc, multi)
  ppEval := fun s => (s.fuelOut, 0, false)
  gmtLoop := fun s acc => (s.fuelOut, acc)
  getMacroTokens := fun s => (s.fuelOut, [])
  handlePreprocessorDirective := fun s => (s.fuelOut, false)
  handleDirectiveWhileInactive := fun s => s.fuelOut
  ifSkipAfter := fun _ s => s.fuelOut
  ifSkipLoop := fun s => s.fuelOut
  handleIfContext := fun s => s.fuelOut
  enterPreprocessorDirective := fun s => s.fuelOut
  ptcLoop := fun s tok _ _ => (s.fuelOut, tok)
  processTailCommentBlock := fun s tok => (s.fuelOut, tok)
  pfcLoop := fun s tok _ _ _ => (s.fuelOut, tok)
  processFrontCommentBlock := fun s tok => (s.fuelOut, tok)
  skipCommentsLoop := fun s tok => (s.fuelOut, tok)
  frontBlocksLoop := fun s tok => (s.fuelOut, tok)
  handleComments := fun s tok => (s.fuelOut, tok)
  next := fun s tok => (s.fuelOut, tok, .UNKNOWN)

/-- One step of the interpreter: each routine of lexer.cpp, written exactly
as in the source, with every (mutually) recursive call going through the
previous fuel level. -/
def interpStep (prev : Interp) : Interp where
  /- Lexer::scan: the main dispatch.  The leading hash of a directive is
  handled before the token is initialised; then the C switch on the first
  character is rendered as a chain over its (disjoint) case labels, with
  the digit cases tested first. -/
  scan := fun s tok =>
    let (c, s) := s.consumeWhitespace
    if c = '#' ∧ s.lexedTokensOnLine = false then
      (prev.enterPreprocessorDirective s, tok, .NONE)
    else
    let tok := tok.initTok { loc := s.lastLoc, line := s.line }
    if IsDigit c then s.handleNumber tok c
    else if c = '\x00' then
      if s.lexingForDirective then (s, tok, .EOL)
      else if ppHandleEndOfFile then (s, tok, .NONE)
      else (s, tok, .EOF)
    else if c = ';' then (s, tok, .SEMICOLON)
    else if c = '{' then (s, tok, .LBRACE)
    else if c = '}' then (s, tok, .RBRACE)
    else if c = '(' then (s, tok, .LPAREN)
    else if c = ')' then (s, tok, .RPAREN)
    else if c = '[' then (s, tok, .LBRACKET)
    else if c = ']' then (s, tok, .RBRACKET)
    else if c = '~' then (s, tok, .TILDE)
    else if c = '?' then (s, tok, .QMARK)
    else if c = ':' then (s, tok, .COLON)
    else if c = ',' then (s, tok, .COMMA)
    else if c = '\r' ∨ c = '\n' then
      let s := s.checkAssert (s.lexingForDirective = true)
        .scanNewlineDirective
      (s, tok, .EOL)
    else if c = '.' then
      let (m, s) := s.matchChar '.'
      if m then
        let (m2, s) := s.matchChar '.'
        if m2 then (s, tok, .ELLIPSES)
        else ({ s with pos := s.pos - 1 }, tok, .DOT)
      else (s, tok, .DOT)
    else if c = '/' then
      let (m, s) := s.matchChar '='
      if m then (s, tok, .ASSIGN_DIV)
      else
        let (m, s) := s.matchChar '/'
        if m then s.singleLineComment tok
        else
          let (m, s) := s.matchChar '*'
          if m then s.multiLineComment tok
          else (s, tok, .SLASH)
    else if c = '*' then
      let (m, s) := s.matchChar '='
      if m then (s, tok, .ASSIGN_MUL) else (s, tok, .STAR)
    else if c = '+' then
      let (m, s) := s.matchChar '='
      if m then (s, tok, .ASSIGN_ADD)
      else
        let (m, s) := s.matchChar '+'
        if m then (s, tok, .INCREMENT) else (s, tok, .PLUS)
    else if c = '&' then
      let (m, s) := s.matchChar '='
      if m then (s, tok, .ASSIGN_BITAND)
      else
        let (m, s) := s.matchChar '&'
        if m then (s, tok, .AND) else (s, tok, .BITAND)
    else if c = '|' then
      let (m, s) := s.matchChar '='
      if m then (s, tok, .ASSIGN_BITOR)
      else
        let (m, s) := s.matchChar '|'
        if m then (s, tok, .OR) else (s, tok, .BITOR)
    else if c = '^' then
      let (m, s) := s.matchChar '='
      if m then (s, tok, .ASSIGN_BITXOR) else (s, tok, .BITXOR)
    else if c = '%' then
      let (m, s) := s.matchChar '='
      if m then (s, tok, .ASSIGN_MOD) else (s, tok, .PERCENT)
    else if c = '-' then
      let (m, s) := s.matchChar '='
      if m then (s, tok, .ASSIGN_SUB)
      else
        let (m, s) := s.matchChar '-'
        if m then (s, tok, .DECREMENT) else (s, tok, .MINUS)
    else if c = '!' then
      let (m, s) := s.matchChar '='
      if m then (s, tok, .NOTEQUALS) else (s, tok, .NOT)
    else if c = '=' then
      let (m, s) := s.matchChar '='
      if m then (s, tok, .EQUALS) else (s, tok, .ASSIGN)
    else if c = '<' then
      let (m, s) := s.matchChar '='
      if m then (s, tok, .LE)
      else
        let (m, s) := s.matchChar '<'
        if m then
          let (m2, s) := s.matchChar '='
          if m2 then (s, tok, .ASSIGN_SHL) else (s, tok, .SHL)
        else (s, tok, .LT)
    else if c = '>' then
      let (m, s) := s.matchChar '='
      if m then (s, tok, .GE)
      else
        let (m, s) := s.matchChar '>'
        if m then
          let (m2, s) := s.matchChar '>'
          if m2 then
            let (m3, s) := s.matchChar '='
            if m3 then (s, tok, .ASSIGN_USHR) else (s, tok, .USHR)
          else (s, tok, .SHR)
        else (s, tok, .GT)
    else if c = '\'' then s.charLiteral tok
    else if c = '"' then s.stringLiteral tok
    else if IsIdentStart c then s.handleIdentifier tok c
    else
      let s :=
        if ¬ s.lexingForDirective then
          s.ccReport tok.start.loc .unexpected_char
        else s
      (s, tok, .UNKNOWN)
  /- The do/while loop of directive_next: scan, skipping comments. -/
  dnLoop := fun s tok =>
    let (s, tok, k) := prev.scan s tok
    let tok := { tok with kind := k }
    if k = .COMMENT then prev.dnLoop s tok
    else
      let tok := { tok with endp := { loc := s.curLoc, line := s.line } }
      (s, tok, k)
  /- Lexer::directive_next: lex one token while inside a directive. -/
  directiveNext := fun s tok =>
    let s := s.checkAssert (s.lexingForDirective = true)
      .directiveNextInDirective
    prev.dnLoop s tok
  /- The scanning loop of chewLineAfterDirective: read to EOL, warning at
  most once (through cc_.report, since internal errors are suppressed) on
  extra non-comment content. -/
  chewLoop := fun warn warned s =>
    let (s, tok, k) := prev.directiveNext s {}
    if k = .EOL then s
    else if k = .COMMENT then prev.chewLoop warn warned s
    else
      if warn ∧ ¬ warned then
        prev.chewLoop warn true
          (s.ccReport tok.start.loc .pp_extra_characters)
      else prev.chewLoop warn warned s
  /- Lexer::chewLineAfterDirective: under a scoped suppress_errors_,
  consume the remainder of the directive line. -/
  chewLineAfterDirective := fun warn s =>
    let s := s.checkAssert (s.lexingForDirective = true) .chewInDirective
    let saved := s.suppressErrors
    let s := { s with suppressErrors := true }
    let s := prev.chewLoop warn false s
    { s with suppressErrors := saved }
  /- The token-collecting loop of Preprocessor::eval, modelled from the
  spec: tokens are read through directive_next until EOL; a single integer
  literal is remembered, anything else marks the expression as
  unsupported. -/
  ppEvalLoop := fun s acc multi =>
    let (s, tok, k) := prev.directiveNext s {}
    if k = .EOL then (s, acc, multi)
    else if k = .INTEGER_LITERAL ∧ acc = none ∧ multi = false then
      prev.ppEvalLoop s (some ((tok.intValue.getD 0 : Nat) : Int)) multi
    else prev.ppEvalLoop s acc true
  /- Modelled from the spec: Preprocessor::eval evaluates the rest of the
  directive line as a constant integer expression by reading tokens via the
  lexer until EOL, returning the value and whether evaluation succeeded.
  Only the single-integer-literal form — the one exercised by the claims —
  is given a value; anything else fails. -/
  ppEval := fun s =>
    let (s, acc, multi) := prev.ppEvalLoop s none false
    match acc, multi with
    | some v, false => (s, v, true)
    | _, _ => (s, 0, false)
  /- The collection loop of getMacroTokens: read tokens to EOL, skipping
  comments, accumulating the replacement list. -/
  gmtLoop := fun s acc =>
    let (s, tok, k) := prev.directiveNext s {}
    if k = .COMMENT then prev.gmtLoop s acc
    else if k = .EOL then (s, acc)
    else prev.gmtLoop s (acc ++ [tok])
  /- Lexer::getMacroTokens: with macro expansion disabled for the scope,
  collect the replacement tokens of a define directive. -/
  getMacroTokens := fun s =>
    let saved := s.macroExpansion
    let s := { s with macroExpansion := false }
    let (s, toks) := prev.gmtLoop s []
    ({ s with macroExpansion := saved }, toks)
  /- Lexer::handlePreprocessorDirective: dispatch on the directive keyword;
  the returned Bool asks the caller's line-chew to warn on extra
  characters. -/
  handlePreprocessorDirective := fun s =>
    let begin0 := s.lastLoc
    let (s, directive) := s.maybeKeyword '#'
    if directive = .M_DEFINE then
      let (s, tok, k) := prev.directiveNext s {}
      if k ≠ .NAME then
        (s.ccReport tok.start.loc .bad_directive_token, false)
      else if s.peekChar = '(' then
        (s.report s.curLoc .macro_functions_unsupported, false)
      else
        let (s, _) := prev.getMacroTokens s
        (s.defineMacroAtom (tok.atom.getD []), false)
    else if directive = .M_IF then
      let (s, val, success) := prev.ppEval s
      let errored := success
      let s := { s with ifstack := s.ifstack ++
        [⟨begin0, if val ≠ 0 then .Active else .Ignoring, none⟩] }
      (s, ¬ errored)
    else if directive = .M_ELSE then
      match s.currentIf with
      | none => (s.report begin0 .else_without_if, false)
      | some ix =>
        if ix.elseloc ≠ none then
          (s.report begin0 .else_declared_twice, false)
        else
          let s := s.writeElseLoc begin0
          let s := s.setTopState
            (if ix.state = .Ignoring then .Active else .Inactive)
          (s, true)
    else if directive = .M_ENDIF then
      match s.currentIf with
      | none => (s.report begin0 .endif_without_if, false)
      | some _ => ({ s with ifstack := s.ifstack.dropLast }, true)
    else if directive = .M_UNDEF then
      let saved := s.macroExpansion
      let s := { s with macroExpansion := false }
      let (s, tok, k) := prev.directiveNext s {}
      if k ≠ .NAME then
        let s := s.ccReport tok.start.loc .bad_directive_token
        ({ s with macroExpansion := saved }, false)
      else
        let (s, removed) := s.removeMacroAtom (tok.atom.getD [])
        ({ s with macroExpansion := saved }, removed)
    else if directive = .M_ENDINPUT then
      ({ s with pos := s.input.length, ifstack := [] }, false)
    else if directive = .M_INCLUDE ∨ directive = .M_TRYINCLUDE then
      let (c, s) := s.firstNonSpaceChar
      if c ≠ '"' ∧ c ≠ '<' then
        (s.report s.lastLoc .bad_include_line, false)
      else
        let mtch := if c = '"' then '"' else '>'
        let s := s.clearLit
        let (s, ok) := includeLitLoop (s.input.length + 2) mtch s
        if ¬ ok then (s, false)
        else
          let s := s.appendLitNul
          let s := prev.chewLineAfterDirective true s
          (s.enterFileGhost s.literal, false)
    else if directive = .M_PRAGMA then
      let (s, tok, k) := prev.directiveNext s {}
      if k ≠ .NAME then
        (s.ccReport tok.start.loc .pragma_must_have_name, false)
      else if tok.atom = some ("deprecated".toList) then
        let (b, e, s) := s.readUntilEnd
        (s.setDeprecationGhost b e, true)
      else if tok.atom = some ("newdecls".toList) then
        let saved := s.macroExpansion
        let s := { s with macroExpansion := false }
        let (s, tok2, k2) := prev.directiveNext s {}
        if k2 ≠ .NAME then
          let s := s.ccReport tok2.start.loc .bad_pragma_newdecls
          ({ s with macroExpansion := saved }, false)
        else if tok2.atom = some ("required".toList) then
          ({ s with macroExpansion := saved, requireNewdecls := true },
            true)
        else if tok2.atom = some ("optional".toList) then
          ({ s with macroExpansion := saved, requireNewdecls := false },
            true)
        else
          let s := s.ccReport tok2.start.loc .bad_pragma_newdecls
          ({ s with macroExpansion := saved }, false)
      else if tok.atom = some ("semicolon".toList) then
        let (s, _, success) := prev.ppEval s
        (s, success)
      else if tok.atom = some ("dynamic".toList) then
        let (s, val, success) := prev.ppEval s
        if ¬ success then (s, false)
        else s.changePragmaDynamicGhost val
      else
        (s.ccReport tok.start.loc .unknown_pragma, false)
    else
      (s.report begin0 .unknown_directive, false)
  /- Lexer::handleDirectiveWhileInactive: the restricted directive scan of
  the skip engine.  A nested if pushes a Dead context; an else in a Dead
  context is ignored; a duplicate else is reported — and then, unlike the
  active engine, elseloc and the state are still overwritten. -/
  handleDirectiveWhileInactive := fun s =>
    let saved := s.lexingForDirective
    let s := { s with lexingForDirective := true }
    let begin0 := s.lastLoc
    let (s, directive) := s.maybeKeyword '#'
    let s :=
      if directive = .M_IF then
        { s with ifstack := s.ifstack ++ [⟨begin0, .Dead, none⟩] }
      else if directive = .M_ELSE then
        match s.currentIf with
        | none => s.checkAssert False .currentIfMissing
        | some ix =>
          if ix.state = .Dead then s
          else
            let s :=
              if ix.elseloc ≠ none then
                s.report begin0 .else_declared_twice
              else s
            let s := s.writeElseLoc begin0
            let s := s.setTopState
              (if ix.state = .Ignoring then .Active else .Inactive)
            prev.chewLineAfterDirective true s
      else if directive = .M_ENDIF then
        let s := { s with ifstack := s.ifstack.dropLast }
        prev.chewLineAfterDirective true s
      else s
    { s with lexingForDirective := saved }
  /- The tail of one iteration of handleIfContext's line loop: consume to
  the line terminator, stop at EOF, and advance to the next line. -/
  ifSkipAfter := fun c s =>
    let (c, s) := skipToTerminator (s.input.length + 2) c s
    if c = '\x00' then s
    else prev.ifSkipLoop (s.advanceLine c)
  /- The line loop of handleIfContext: inspect each line's first non-space
  character; a hash runs the restricted directive scan, and the loop
  returns once the if-stack is empty or its top is Active. -/
  ifSkipLoop := fun s =>
    let (c, s) := s.firstNonSpaceChar
    if c = '#' then
      let s := prev.handleDirectiveWhileInactive s
      if s.currentIf = none ∨ s.currentIfState = some .Active then s
      else prev.ifSkipAfter c s
    else prev.ifSkipAfter c s
  /- Lexer::handleIfContext: the skip engine for inactive regions; entered
  at a line terminator (asserted), it fast-forwards line by line. -/
  handleIfContext := fun s =>
    let s := s.checkAssert
      (s.peekChar = '\r' ∨ s.peekChar = '\n' ∨ s.peekChar = '\x00')
      .handleIfContextAtEol
    if s.peekChar = '\x00' then s
    else
      let s := s.advanceLine s.peekChar
      prev.ifSkipLoop s
  /- Lexer::enterPreprocessorDirective: run the directive with a scoped
  directive mode, chew the rest of the line, and fast-forward any inactive
  region that the directive opened. -/
  enterPreprocessorDirective := fun s =>
    let s := { s with lexedTokensOnLine := true }
    let saved := s.lexingForDirective
    let s := { s with lexingForDirective := true }
    let (s, warn) := prev.handlePreprocessorDirective s
    let s := prev.chewLineAfterDirective warn s
    let s := { s with lexingForDirective := saved }
    if s.currentIf ≠ none ∧ s.currentIfState ≠ some .Active then
      let s := prev.handleIfContext s
      if s.peekChar = '\x00' then s
      else s.checkAssert
        (s.currentIf = none ∨ s.currentIfState = some .Active)
        .afterIfContextActive
    else s
  /- The loop of processTailCommentBlock.  As in the source, the loop
  continues while scan produces a NON-comment token (extending the block's
  end over it, unless a blank line intervenes) and exits at the first
  comment; the range is then committed as a Tail block. -/
  ptcLoop := fun s tok startP endP =>
    let (s, tok, k) := prev.scan s tok
    let tok := { tok with kind := k }
    if k ≠ .COMMENT then
      if tok.start.line > endP.line + 1 then
        (s.addCommentRange .Tail startP.loc endP.loc, tok)
      else prev.ptcLoop s tok startP tok.endp
    else
      (s.addCommentRange .Tail startP.loc endP.loc, tok)
  /- Lexer::processTailCommentBlock. -/
  processTailCommentBlock := fun s tok =>
    prev.ptcLoop s tok tok.start tok.endp
  /- The loop of processFrontCommentBlock. -/
  pfcLoop := fun s tok startP endP lastEnd =>
    let (s, tok, k) := prev.scan s tok
    let tok := { tok with kind := k }
    if k ≠ .COMMENT then
      if startP.line = tok.start.line then (s, tok)
      else
        let endP := if tok.start.line ≠ lastEnd.line then lastEnd else endP
        pfcCommit s tok startP endP
    else
      let endP := lastEnd
      if tok.start.line > lastEnd.line + 1 then pfcCommit s tok startP endP
      else prev.pfcLoop s tok startP endP tok.endp
  /- Lexer::processFrontCommentBlock. -/
  processFrontCommentBlock := fun s tok =>
    prev.pfcLoop s tok tok.start {} {}
  /- The plain comment-skipping loop used when comment tracing is off or a
  directive is being lexed. -/
  skipCommentsLoop := fun s tok =>
    if tok.kind = .COMMENT then
      let (s, tok, k) := prev.scan s tok
      prev.skipCommentsLoop s { tok with kind := k }
    else (s, tok)
  /- The front-comment-block loop at the end of handleComments. -/
  frontBlocksLoop := fun s tok =>
    if tok.kind = .COMMENT then
      let (s, tok) := prev.processFrontCommentBlock s tok
      prev.frontBlocksLoop s tok
    else (s, tok)
  /- Lexer::handleComments: attribute comment blocks when tracing is on. -/
  handleComments := fun s tok =>
    if ¬ s.traceComments ∨ s.lexingForDirective then
      prev.skipCommentsLoop s tok
    else
      let (s, tok) :=
        if s.lexedTokensOnLine then prev.processTailCommentBlock s tok
        else (s, tok)
      let s := s.checkAssert (s.lexedTokensOnLine = false)
        .tailThenFirstOnLine
      prev.frontBlocksLoop s tok
  /- Lexer::next: produce one token (or TOK_NONE on a suspension),
  resolving comment blocks and stamping the token's end. -/
  next := fun s tok =>
    let (s, tok, k) := prev.scan s tok
    let tok := { tok with kind := k }
    let (s, tok) :=
      if tok.kind = .COMMENT then
        let (s, tok) := prev.handleComments s tok
        (s.checkAssert (tok.kind ≠ .COMMENT) .commentsAfterNext, tok)
      else (s, tok)
    let s := { s with lexedTokensOnLine := tok.kind ≠ .NONE }
    let tok := { tok with endp := { loc := s.curLoc, line := s.line } }
    (s, tok, tok.kind)

/-- The fuel-indexed interpreter of the lexer's recursive core. -/
def interp : Nat → Interp
  | 0 => interpZero
  | f+1 => interpStep (interp f)

/-- Lexer::scan at a given fuel. -/
def scan (fuel : Nat) (s : LexState) (tok : Token) :
    LexState × Token × TokenKind :=
  (interp fuel).scan s tok

/-- Lexer::directive_next at a given fuel. -/
def directiveNext (fuel : Nat) (s : LexState) (tok : Token) :
    LexState × Token × TokenKind :=
  (interp fuel).directiveNext s tok

/-- Lexer::chewLineAfterDirective at a given fuel. -/
def chewLineAfterDirective (fuel : Nat) (warn : Bool) (s : LexState) :
    LexState :=
  (interp fuel).chewLineAfterDirective warn s

/-- Preprocessor::eval (spec-modelled) at a given fuel. -/
def ppEval (fuel : Nat) (s : LexState) : LexState × Int × Bool :=
  (interp fuel).ppEval s

/-- Lexer::handlePreprocessorDirective at a given fuel. -/
def handlePreprocessorDirective (fuel : Nat) (s : LexState) :
    LexState × Bool :=
  (interp fuel).handlePreprocessorDirective s

/-- Lexer::handleDirectiveWhileInactive at a given fuel. -/
def handleDirectiveWhileInactive (fuel : Nat) (s : LexState) : LexState :=
  (interp fuel).handleDirectiveWhileInactive s

/-- Lexer::handleIfContext at a given fuel. -/
def handleIfContext (fuel : Nat) (s : LexState) : LexState :=
  (interp fuel).handleIfContext s

/-- Lexer::enterPreprocessorDirective at a given fuel. -/
def enterPreprocessorDirective (fuel : Nat) (s : LexState) : LexState :=
  (interp fuel).enterPreprocessorDirective s

/-- Lexer::processTailCommentBlock at a given fuel. -/
def processTailCommentBlock (fuel : Nat) (s : LexState) (tok : Token) :
    LexState × Token :=
  (interp fuel).processTailCommentBlock s tok

/-- Lexer::processFrontCommentBlock at a given fuel. -/
def processFrontCommentBlock (fuel : Nat) (s : LexState) (tok : Token) :
    LexState × Token :=
  (interp fuel).processFrontCommentBlock s tok

/-- Lexer::handleComments at a given fuel. -/
def handleComments (fuel : Nat) (s : LexState) (tok : Token) :
    LexState × Token :=
  (interp fuel).handleComments s tok

/-- Lexer::next at a given fuel. -/
def next (fuel : Nat) (s : LexState) (tok : Token) :
    LexState × Token × TokenKind :=
  (interp fuel).next s tok

/-- A driver that calls next repeatedly, collecting the concrete tokens (the
TOK_NONE suspensions are re-polled, as the parser does) until TOK_EOF. -/
def lexLoop : Nat → LexState → Token → List Token → LexState × List Token
  | 0, s, _, acc => (s.fuelOut, acc)
  | f+1, s, tok, acc =>
    let (s, tok, k) := next (f+1) s tok
    if k = .NONE then lexLoop f s tok acc
    else if k = .EOF then (s, acc ++ [tok])
    else lexLoop f s tok (acc ++ [tok])

/-- Lex a whole buffer from the initial state. -/
def lexAll (fuel : Nat) (input : List Char) (trace : Bool) :
    LexState × List Token :=
  lexLoop fuel (initState input trace) {} []

/-- The mathematical value of a decimal digit string. -/
def natOfDigits (ds : List Char) : Nat :=
  ds.foldl (fun a c => a * 10 + (c.toNat - 48)) 0

/-- The characters with an entry in readEscapeCode's escape table (besides
the decimal digits, which start a \ddd escape). -/
def EscapeTableChar (c : Char) : Prop :=
  c ∈ ['\\', 'a', 'b', 'e', 'f', 'n', 'r', 't', 'v', 'x', '\'', '"', '%']

instance (c : Char) : Decidable (EscapeTableChar c) :=
  inferInstanceAs (Decidable (c ∈ _))

/-- The lexer state after call 1 of next on the c1 scenario. -/
def c1S1 : LexState :=
  { input := ['0', 'x', '1', 'A', ' ', '+', ' ', '2'],
    pos := 4,
    line := 1,
    lexingForDirective := false,
    suppressErrors := false,
    lexedTokensOnLine := true,
    literal := ['1', 'A'],
    ifstack := [],
    traceComments := false,
    requireNewdecls := false,
    macroExpansion := true,
    macros := [],
    diags := [],
    comments := [],
    elseWrites := [],
    assertFails := [],
    macroEntered := [],
    enteredFiles := [],
    deprecations := [],
    pragmaDynamics := [],
    fuelOutFlag := false }

/-- The token produced by call 1 of next on the c1 scenario. -/
def c1T1 : Token :=
  { kind := SpV2.TokenKind.HEX_LITERAL,
    start := { loc := some 0, line := 1 },
    endp := { loc := some 4, line := 1 },
    intValue := some 20,
    charValue := none,
    floatRaw := none,
    atom := none }

/-- The lexer state after call 2 of next on the c1 scenario. -/
def c1S2 : LexState :=
  { input := ['0', 'x', '1', 'A', ' ', '+', ' ', '2'],
    pos := 6,
    line := 1,
    lexingForDirective := false,
    suppressErrors := false,
    lexedTokensOnLine := true,
    literal := ['1', 'A'],
    ifstack := [],
    traceComments := false,
    requireNewdecls := false,
    macroExpansion := true,
    macros := [],
    diags := [],
    comments := [],
    elseWrites := [],
    assertFails := [],
    macroEntered := [],
    enteredFiles := [],
    deprecations := [],
    pragmaDynamics := [],
    fuelOutFlag := false }

/-- The token produced by call 2 of next on the c1 scenario. -/
def c1T2 : Token :=
  { kind := SpV2.TokenKind.PLUS,
    start := { loc := some 5, line := 1 },
    endp := { loc := some 6, line := 1 },
    intValue := none,
    charValue := none,
    floatRaw := none,
    atom := none }

/-- The lexer state after call 3 of next on the c1 scenario. -/
def c1S3 : LexState :=
  { input := ['0', 'x', '1', 'A', ' ', '+', ' ', '2'],
    pos := 8,
    line := 1,
    lexingForDirective := false,
    suppressErrors := false,
    lexedTokensOnLine := true,
    literal := ['2'],
    ifstack := [],
    traceComments := false,
    requireNewdecls := false,
    macroExpansion := true,
    macros := [],
    diags := [],
    comments := [],
    elseWrites := [],
    assertFails := [],
    macroEntered := [],
    enteredFiles := [],
    deprecations := [],
    pragmaDynamics := [],
    fuelOutFlag := false }

/-- The token produced by call 3 of next on the c1 scenario. -/
def c1T3 : Token :=
  { kind := SpV2.TokenKind.INTEGER_LITERAL,
    start := { loc := some 7, line := 1 },
    endp := { loc := some 8, line := 1 },
    intValue := some 2,
    charValue := none,
    floatRaw := none,
    atom := none }

/-- The lexer state after call 4 of next on the c1 scenario. -/
def c1S4 : LexState :=
  { input := ['0', 'x', '1', 'A', ' ', '+', ' ', '2'],
    pos := 9,
    line := 1,
    lexingForDirective := false,
    suppressErrors := false,
    lexedTokensOnLine := true,
    literal := ['2'],
    ifstack := [],
    traceComments := false,
    requireNewdecls := false,
    macroExpansion := true,
    macros := [],
    diags := [],
    comments := [],
    elseWrites := [],
    assertFails := [],
    macroEntered := [],
    enteredFiles := [],
    deprecations := [],
    pragmaDynamics := [],
    fuelOutFlag := false }

/-- The token produced by call 4 of next on the c1 scenario. -/
def c1T4 : Token :=
  { kind := SpV2.TokenKind.EOF,
    start := { loc := some 8, line := 1 },
    endp := { loc := some 9, line := 1 },
    intValue := none,
    charValue := none,
    floatRaw := none,
    atom := none }

/-- The lexer state after call 1 of next on the c2 scenario. -/
def c2S1 : LexState :=
  { input := ['\'', '\\', 'x', '4', '1', ';', '\''],
    pos := 7,
    line := 1,
    lexingForDirective := false,
    suppressErrors := false,
    lexedTokensOnLine := true,
    literal := [],
    ifstack := [],
    traceComments := false,
    requireNewdecls := false,
    macroExpansion := true,
    macros := [],
    diags := [],
    comments := [],
    elseWrites := [],
    assertFails := [],
    macroEntered := [],
    enteredFiles := [],
    deprecations := [],
    pragmaDynamics := [],
    fuelOutFlag := false }

/-- The token produced by call 1 of next on the c2 scenario. -/
def c2T1 : Token :=
  { kind := SpV2.TokenKind.CHAR_LITERAL,
    start := { loc := some 0, line := 1 },
    endp := { loc := some 7, line := 1 },
    intValue := none,
    charValue := some 0,
    floatRaw := none,
    atom := none }

/-- The lexer state after call 2 of next on the c2 scenario. -/
def c2S2 : LexState :=
  { input := ['\'', '\\', 'x', '4', '1', ';', '\''],
    pos := 8,
    line := 1,
    lexingForDirective := false,
    suppressErrors := false,
    lexedTokensOnLine := true,
    literal := [],
    ifstack := [],
    traceComments := false,
    requireNewdecls := false,
    macroExpansion := true,
    macros := [],
    diags := [],
    comments := [],
    elseWrites := [],
    assertFails := [],
    macroEntered := [],
    enteredFiles := [],
    deprecations := [],
    pragmaDynamics := [],
    fuelOutFlag := false }

/-- The token produced by call 2 of next on the c2 scenario. -/
def c2T2 : Token :=
  { kind := SpV2.TokenKind.EOF,
    start := { loc := some 7, line := 1 },
    endp := { loc := some 8, line := 1 },
    intValue := none,
    charValue := none,
    floatRaw := none,
    atom := none }

/-- The lexer state after call 1 of next on the c3 scenario. -/
def c3S1 : LexState :=
  { input := ['1', '.', 'x'],
    pos := 3,
    line := 1,
    lexingForDirective := false,
    suppressErrors := false,
    lexedTokensOnLine := true,
    literal := ['1', '.'],
    ifstack := [],
    traceComments := false,
    requireNewdecls := false,
    macroExpansion := true,
    macros := [],
    diags := [{ loc := some 3,
                id := SpV2.MsgId.expected_digit_for_float,
                channel := SpV2.DiagChannel.viaCC,
                inSuppressedScope := false }],
    comments := [],
    elseWrites := [],
    assertFails := [SpV2.AssertId.handleNumberDefault],
    macroEntered := [],
    enteredFiles := [],
    deprecations := [],
    pragmaDynamics := [],
    fuelOutFlag := false }

/-- The token produced by call 1 of next on the c3 scenario. -/
def c3T1 : Token :=
  { kind := SpV2.TokenKind.UNKNOWN,
    start := { loc := some 0, line := 1 },
    endp := { loc := some 3, line := 1 },
    intValue := none,
    charValue := none,
    floatRaw := none,
    atom := none }

/-- The lexer state after call 2 of next on the c3 scenario. -/
def c3S2 : LexState :=
  { input := ['1', '.', 'x'],
    pos := 4,
    line := 1,
    lexingForDirective := false,
    suppressErrors := false,
    lexedTokensOnLine := true,
    literal := ['1', '.'],
    ifstack := [],
    traceComments := false,
    requireNewdecls := false,
    macroExpansion := true,
    macros := [],
    diags := [{ loc := some 3,
                id := SpV2.MsgId.expected_digit_for_float,
                channel := SpV2.DiagChannel.viaCC,
                inSuppressedScope := false }],
    comments := [],
    elseWrites := [],
    assertFails := [SpV2.AssertId.handleNumberDefault],
    macroEntered := [],
    enteredFiles := [],
    deprecations := [],
    pragmaDynamics := [],
    fuelOutFlag := false }

/-- The token produced by call 2 of next on the c3 scenario. -/
def c3T2 : Token :=
  { kind := SpV2.TokenKind.EOF,
    start := { loc := some 3, line := 1 },
    endp := { loc := some 4, line := 1 },
    intValue := none,
    charValue := none,
    floatRaw := none,
    atom := none }

/-- The lexer state after call 1 of next on the c4 scenario. -/
def c4S1 : LexState :=
  { input := ['#', 'i', 'f', ' ', '0', '\n', 'J', 'U', 'N', 'K', '\n', '#', 'e', 'l', 's', 'e', '\n',
              'o', 'k', '\n', '#', 'e', 'n', 'd', 'i', 'f', '\n'],
    pos := 16,
    line := 4,
    lexingForDirective := false,
    suppressErrors := false,
    lexedTokensOnLine := false,
    literal := ['#', 'e', 'l', 's', 'e'],
    ifstack := [{ first := some 0, state := SpV2.IfState.Active, elseloc := some 11 }],
    traceComments := false,
    requireNewdecls := false,
    macroExpansion := true,
    macros := [],
    diags := [],
    comments := [],
    elseWrites := [some 11],
    assertFails := [],
    macroEntered := [],
    enteredFiles := [],
    deprecations := [],
    pragmaDynamics := [],
    fuelOutFlag := false }

/-- The token produced by call 1 of next on the c4 scenario. -/
def c4T1 : Token :=
  { kind := SpV2.TokenKind.NONE,
    start := { loc := none, line := 0 },
    endp := { loc := some 16, line := 4 },
    intValue := none,
    charValue := none,
    floatRaw := none,
    atom := none }

/-- The lexer state after call 2 of next on the c4 scenario. -/
def c4S2 : LexState :=
  { input := ['#', 'i', 'f', ' ', '0', '\n', 'J', 'U', 'N', 'K', '\n', '#', 'e', 'l', 's', 'e', '\n',
              'o', 'k', '\n', '#', 'e', 'n', 'd', 'i', 'f', '\n'],
    pos := 19,
    line := 5,
    lexingForDirective := false,
    suppressErrors := false,
    lexedTokensOnLine := true,
    literal := ['o', 'k'],
    ifstack := [{ first := some 0, state := SpV2.IfState.Active, elseloc := some 11 }],
    traceComments := false,
    requireNewdecls := false,
    macroExpansion := true,
    macros := [],
    diags := [],
    comments := [],
    elseWrites := [some 11],
    assertFails := [],
    macroEntered := [],
    enteredFiles := [],
    deprecations := [],
    pragmaDynamics := [],
    fuelOutFlag := false }

/-- The token produced by call 2 of next on the c4 scenario. -/
def c4T2 : Token :=
  { kind := SpV2.TokenKind.NAME,
    start := { loc := some 17, line := 5 },
    endp := { loc := some 19, line := 5 },
    intValue := none,
    charValue := none,
    floatRaw := none,
    atom := some ['o', 'k'] }

/-- The lexer state after call 3 of next on the c4 scenario. -/
def c4S3 : LexState :=
  { input := ['#', 'i', 'f', ' ', '0', '\n', 'J', 'U', 'N', 'K', '\n', '#', 'e', 'l', 's', 'e', '\n',
              'o', 'k', '\n', '#', 'e', 'n', 'd', 'i', 'f', '\n'],
    pos := 26,
    line := 6,
    lexingForDirective := false,
    suppressErrors := false,
    lexedTokensOnLine := false,
    literal := ['#', 'e', 'n', 'd', 'i', 'f'],
    ifstack := [],
    traceComments := false,
    requireNewdecls := false,
    macroExpansion := true,
    macros := [],
    diags := [],
    comments := [],
    elseWrites := [some 11],
    assertFails := [],
    macroEntered := [],
    enteredFiles := [],
    deprecations := [],
    pragmaDynamics := [],
    fuelOutFlag := false }

/-- The token produced by call 3 of next on the c4 scenario. -/
def c4T3 : Token :=
  { kind := SpV2.TokenKind.NONE,
    start := { loc := some 17, line := 5 },
    endp := { loc := some 26, line := 6 },
    intValue := none,
    charValue := none,
    floatRaw := none,
    atom := some ['o', 'k'] }

/-- The lexer state after call 4 of next on the c4 scenario. -/
def c4S4 : LexState :=
  { input := ['#', 'i', 'f', ' ', '0', '\n', 'J', 'U', 'N', 'K', '\n', '#', 'e', 'l', 's', 'e', '\n',
              'o', 'k', '\n', '#', 'e', 'n', 'd', 'i', 'f', '\n'],
    pos := 28,
    line := 7,
    lexingForDirective := false,
    suppressErrors := false,
    lexedTokensOnLine := true,
    literal := ['#', 'e', 'n', 'd', 'i', 'f'],
    ifstack := [],
    traceComments := false,
    requireNewdecls := false,
    macroExpansion := true,
    macros := [],
    diags := [],
    comments := [],
    elseWrites := [some 11],
    assertFails := [],
    macroEntered := [],
    enteredFiles := [],
    deprecations := [],
    pragmaDynamics := [],
    fuelOutFlag := false }

/-- The token produced by call 4 of next on the c4 scenario. -/
def c4T4 : Token :=
  { kind := SpV2.TokenKind.EOF,
    start := { loc := some 27, line := 7 },
    endp := { loc := some 28, line := 7 },
    intValue := none,
    charValue := none,
    floatRaw := none,
    atom := none }

/-- The lexer state after call 1 of next on the c5a scenario. -/
def c5aS1 : LexState :=
  { input := ['#', 'e', 'n', 'd', 'i', 'f', ' ', '\"', 'a', '\n'],
    pos := 11,
    line := 1,
    lexingForDirective := false,
    suppressErrors := false,
    lexedTokensOnLine := false,
    literal := ['a'],
    ifstack := [],
    traceComments := false,
    requireNewdecls := false,
    macroExpansion := true,
    macros := [],
    diags := [{ loc := some 0,
                id := SpV2.MsgId.endif_without_if,
                channel := SpV2.DiagChannel.viaReport,
                inSuppressedScope := false },
              { loc := some 7,
                id := SpV2.MsgId.unterminated_string,
                channel := SpV2.DiagChannel.viaCC,
                inSuppressedScope := true }],
    comments := [],
    elseWrites := [],
    assertFails := [],
    macroEntered := [],
    enteredFiles := [],
    deprecations := [],
    pragmaDynamics := [],
    fuelOutFlag := false }

/-- The token produced by call 1 of next on the c5a scenario. -/
def c5aT1 : Token :=
  { kind := SpV2.TokenKind.NONE,
    start := { loc := none, line := 0 },
    endp := { loc := some 11, line := 1 },
    intValue := none,
    charValue := none,
    floatRaw := none,
    atom := none }

/-- The lexer state after call 2 of next on the c5a scenario. -/
def c5aS2 : LexState :=
  { input := ['#', 'e', 'n', 'd', 'i', 'f', ' ', '\"', 'a', '\n'],
    pos := 11,
    line := 1,
    lexingForDirective := false,
    suppressErrors := false,
    lexedTokensOnLine := true,
    literal := ['a'],
    ifstack := [],
    traceComments := false,
    requireNewdecls := false,
    macroExpansion := true,
    macros := [],
    diags := [{ loc := some 0,
                id := SpV2.MsgId.endif_without_if,
                channel := SpV2.DiagChannel.viaReport,
                inSuppressedScope := false },
              { loc := some 7,
                id := SpV2.MsgId.unterminated_string,
                channel := SpV2.DiagChannel.viaCC,
                inSuppressedScope := true }],
    comments := [],
    elseWrites := [],
    assertFails := [],
    macroEntered := [],
    enteredFiles := [],
    deprecations := [],
    pragmaDynamics := [],
    fuelOutFlag := false }

/-- The token produced by call 2 of next on the c5a scenario. -/
def c5aT2 : Token :=
  { kind := SpV2.TokenKind.EOF,
    start := { loc := some 10, line := 1 },
    endp := { loc := some 11, line := 1 },
    intValue := none,
    charValue := none,
    floatRaw := none,
    atom := none }

/-- The lexer state after call 1 of next on the c5b scenario. -/
def c5bS1 : LexState :=
  { input := ['#', 'e', 'n', 'd', 'i', 'f', ' ', '\'', 'a', '\"', '\n'],
    pos := 10,
    line := 1,
    lexingForDirective := false,
    suppressErrors := false,
    lexedTokensOnLine := false,
    literal := ['#', 'e', 'n', 'd', 'i', 'f'],
    ifstack := [],
    traceComments := false,
    requireNewdecls := false,
    macroExpansion := true,
    macros := [],
    diags := [{ loc := some 0,
                id := SpV2.MsgId.endif_without_if,
                channel := SpV2.DiagChannel.viaReport,
                inSuppressedScope := false }],
    comments := [],
    elseWrites := [],
    assertFails := [],
    macroEntered := [],
    enteredFiles := [],
    deprecations := [],
    pragmaDynamics := [],
    fuelOutFlag := false }

/-- The token produced by call 1 of next on the c5b scenario. -/
def c5bT1 : Token :=
  { kind := SpV2.TokenKind.NONE,
    start := { loc := none, line := 0 },
    endp := { loc := some 10, line := 1 },
    intValue := none,
    charValue := none,
    floatRaw := none,
    atom := none }

/-- The lexer state after call 2 of next on the c5b scenario. -/
def c5bS2 : LexState :=
  { input := ['#', 'e', 'n', 'd', 'i', 'f', ' ', '\'', 'a', '\"', '\n'],
    pos := 12,
    line := 2,
    lexingForDirective := false,
    suppressErrors := false,
    lexedTokensOnLine := true,
    literal := ['#', 'e', 'n', 'd', 'i', 'f'],
    ifstack := [],
    traceComments := false,
    requireNewdecls := false,
    macroExpansion := true,
    macros := [],
    diags := [{ loc := some 0,
                id := SpV2.MsgId.endif_without_if,
                channel := SpV2.DiagChannel.viaReport,
                inSuppressedScope := false }],
    comments := [],
    elseWrites := [],
    assertFails := [],
    macroEntered := [],
    enteredFiles := [],
    deprecations := [],
    pragmaDynamics := [],
    fuelOutFlag := false }

/-- The token produced by call 2 of next on the c5b scenario. -/
def c5bT2 : Token :=
  { kind := SpV2.TokenKind.EOF,
    start := { loc := some 11, line := 2 },
    endp := { loc := some 12, line := 2 },
    intValue := none,
    charValue := none,
    floatRaw := none,
    atom := none }

/-- The lexer state after call 1 of next on the c6 scenario. -/
def c6S1 : LexState :=
  { input := ['x', ' ', '/', '/', ' ', 'a', '\n', 'y', '\n', '/', '/', ' ', 'b', '\n', 'z', '\n'],
    pos := 1,
    line := 1,
    lexingForDirective := false,
    suppressErrors := false,
    lexedTokensOnLine := true,
    literal := ['x'],
    ifstack := [],
    traceComments := true,
    requireNewdecls := false,
    macroExpansion := true,
    macros := [],
    diags := [],
    comments := [],
    elseWrites := [],
    assertFails := [],
    macroEntered := [],
    enteredFiles := [],
    deprecations := [],
    pragmaDynamics := [],
    fuelOutFlag := false }

/-- The token produced by call 1 of next on the c6 scenario. -/
def c6T1 : Token :=
  { kind := SpV2.TokenKind.NAME,
    start := { loc := some 0, line := 1 },
    endp := { loc := some 1, line := 1 },
    intValue := none,
    charValue := none,
    floatRaw := none,
    atom := some ['x'] }

/-- The lexer state after call 2 of next on the c6 scenario. -/
def c6S2 : LexState :=
  { input := ['x', ' ', '/', '/', ' ', 'a', '\n', 'y', '\n', '/', '/', ' ', 'b', '\n', 'z', '\n'],
    pos := 15,
    line := 4,
    lexingForDirective := false,
    suppressErrors := false,
    lexedTokensOnLine := true,
    literal := ['z'],
    ifstack := [],
    traceComments := true,
    requireNewdecls := false,
    macroExpansion := true,
    macros := [],
    diags := [],
    comments := [(SpV2.CommentPos.Tail, some 2, some 6)],
    elseWrites := [],
    assertFails := [],
    macroEntered := [],
    enteredFiles := [],
    deprecations := [],
    pragmaDynamics := [],
    fuelOutFlag := false }

/-- The token produced by call 2 of next on the c6 scenario. -/
def c6T2 : Token :=
  { kind := SpV2.TokenKind.NAME,
    start := { loc := some 14, line := 4 },
    endp := { loc := some 15, line := 4 },
    intValue := none,
    charValue := none,
    floatRaw := none,
    atom := some ['z'] }

/-- The lexer state after call 3 of next on the c6 scenario. -/
def c6S3 : LexState :=
  { input := ['x', ' ', '/', '/', ' ', 'a', '\n', 'y', '\n', '/', '/', ' ', 'b', '\n', 'z', '\n'],
    pos := 17,
    line := 5,
    lexingForDirective := false,
    suppressErrors := false,
    lexedTokensOnLine := true,
    literal := ['z'],
    ifstack := [],
    traceComments := true,
    requireNewdecls := false,
    macroExpansion := true,
    macros := [],
    diags := [],
    comments := [(SpV2.CommentPos.Tail, some 2, some 6)],
    elseWrites := [],
    assertFails := [],
    macroEntered := [],
    enteredFiles := [],
    deprecations := [],
    pragmaDynamics := [],
    fuelOutFlag := false }

/-- The token produced by call 3 of next on the c6 scenario. -/
def c6T3 : Token :=
  { kind := SpV2.TokenKind.EOF,
    start := { loc := some 16, line := 5 },
    endp := { loc := some 17, line := 5 },
    intValue := none,
    charValue := none,
    floatRaw := none,
    atom := none }

/-- The lexer state after call 1 of next on the c7 scenario. -/
def c7S1 : LexState :=
  { input := ['#', 'i', 'f', ' ', '1', '\n', '#', 'e', 'l', 's', 'e', '\n', '#', 'e', 'l', 's', 'e',
              '\n', '#', 'e', 'n', 'd', 'i', 'f', '\n'],
    pos := 5,
    line := 1,
    lexingForDirective := false,
    suppressErrors := false,
    lexedTokensOnLine := false,
    literal := ['1'],
    ifstack := [{ first := some 0, state := SpV2.IfState.Active, elseloc := none }],
    traceComments := false,
    requireNewdecls := false,
    macroExpansion := true,
    macros := [],
    diags := [],
    comments := [],
    elseWrites := [],
    assertFails := [],
    macroEntered := [],
    enteredFiles := [],
    deprecations := [],
    pragmaDynamics := [],
    fuelOutFlag := false }

/-- The token produced by call 1 of next on the c7 scenario. -/
def c7T1 : Token :=
  { kind := SpV2.TokenKind.NONE,
    start := { loc := none, line := 0 },
    endp := { loc := some 5, line := 1 },
    intValue := none,
    charValue := none,
    floatRaw := none,
    atom := none }

/-- The lexer state after call 2 of next on the c7 scenario. -/
def c7S2 : LexState :=
  { input := ['#', 'i', 'f', ' ', '1', '\n', '#', 'e', 'l', 's', 'e', '\n', '#', 'e', 'l', 's', 'e',
              '\n', '#', 'e', 'n', 'd', 'i', 'f', '\n'],
    pos := 24,
    line := 5,
    lexingForDirective := false,
    suppressErrors := false,
    lexedTokensOnLine := false,
    literal := ['#', 'e', 'n', 'd', 'i', 'f'],
    ifstack := [],
    traceComments := false,
    requireNewdecls := false,
    macroExpansion := true,
    macros := [],
    diags := [{ loc := some 12,
                id := SpV2.MsgId.else_declared_twice,
                channel := SpV2.DiagChannel.viaReport,
                inSuppressedScope := false }],
    comments := [],
    elseWrites := [some 6, some 12],
    assertFails := [],
    macroEntered := [],
    enteredFiles := [],
    deprecations := [],
    pragmaDynamics := [],
    fuelOutFlag := false }

/-- The token produced by call 2 of next on the c7 scenario. -/
def c7T2 : Token :=
  { kind := SpV2.TokenKind.NONE,
    start := { loc := none, line := 0 },
    endp := { loc := some 24, line := 5 },
    intValue := none,
    charValue := none,
    floatRaw := none,
    atom := none }

/-- The lexer state after call 3 of next on the c7 scenario. -/
def c7S3 : LexState :=
  { input := ['#', 'i', 'f', ' ', '1', '\n', '#', 'e', 'l', 's', 'e', '\n', '#', 'e', 'l', 's', 'e',
              '\n', '#', 'e', 'n', 'd', 'i', 'f', '\n'],
    pos := 26,
    line := 6,
    lexingForDirective := false,
    suppressErrors := false,
    lexedTokensOnLine := true,
    literal := ['#', 'e', 'n', 'd', 'i', 'f'],
    ifstack := [],
    traceComments := false,
    requireNewdecls := false,
    macroExpansion := true,
    macros := [],
    diags := [{ loc := some 12,
                id := SpV2.MsgId.else_declared_twice,
                channel := SpV2.DiagChannel.viaReport,
                inSuppressedScope := false }],
    comments := [],
    elseWrites := [some 6, some 12],
    assertFails := [],
    macroEntered := [],
    enteredFiles := [],
    deprecations := [],
    pragmaDynamics := [],
    fuelOutFlag := false }

/-- The token produced by call 3 of next on the c7 scenario. -/
def c7T3 : Token :=
  { kind := SpV2.TokenKind.EOF,
    start := { loc := some 25, line := 6 },
    endp := { loc := some 26, line := 6 },
    intValue := none,
    charValue := none,
    floatRaw := none,
    atom := none }

/-- The lexer state after call 1 of next on the c9 scenario. -/
def c9S1 : LexState :=
  { input := ['\"', 'a', '\n'],
    pos := 3,
    line := 1,
    lexingForDirective := false,
    suppressErrors := false,
    lexedTokensOnLine := true,
    literal := ['a'],
    ifstack := [],
    traceComments := false,
    requireNewdecls := false,
    macroExpansion := true,
    macros := [],
    diags := [{ loc := some 0,
                id := SpV2.MsgId.unterminated_string,
                channel := SpV2.DiagChannel.viaCC,
                inSuppressedScope := false }],
    comments := [],
    elseWrites := [],
    assertFails := [],
    macroEntered := [],
    enteredFiles := [],
    deprecations := [],
    pragmaDynamics := [],
    fuelOutFlag := false }

/-- The token produced by call 1 of next on the c9 scenario. -/
def c9T1 : Token :=
  { kind := SpV2.TokenKind.STRING_LITERAL,
    start := { loc := some 0, line := 1 },
    endp := { loc := some 3, line := 1 },
    intValue := none,
    charValue := none,
    floatRaw := none,
    atom := none }

/-- The lexer state after call 2 of next on the c9 scenario. -/
def c9S2 : LexState :=
  { input := ['\"', 'a', '\n'],
    pos := 4,
    line := 1,
    lexingForDirective := false,
    suppressErrors := false,
    lexedTokensOnLine := true,
    literal := ['a'],
    ifstack := [],
    traceComments := false,
    requireNewdecls := false,
    macroExpansion := true,
    macros := [],
    diags := [{ loc := some 0,
                id := SpV2.MsgId.unterminated_string,
                channel := SpV2.DiagChannel.viaCC,
                inSuppressedScope := false }],
    comments := [],
    elseWrites := [],
    assertFails := [],
    macroEntered := [],
    enteredFiles := [],
    deprecations := [],
    pragmaDynamics := [],
    fuelOutFlag := false }

/-- The token produced by call 2 of next on the c9 scenario. -/
def c9T2 : Token :=
  { kind := SpV2.TokenKind.EOF,
    start := { loc := some 3, line := 1 },
    endp := { loc := some 4, line := 1 },
    intValue := none,
    charValue := none,
    floatRaw := none,
    atom := none }

set_option maxRecDepth 8000

/-- C1: lexing `0x1A + 2` yields HEX_LITERAL, PLUS, INTEGER_LITERAL and EOF
with no diagnostic, but the hex token's 64-bit payload is 20, not the
base-16 value 26: handleNumber's hex decode multiplies the accumulator by
10 instead of 16 before adding each hex-digit value. -/
theorem c1_hex_payload_decoded_base10 :
    next 64 (initState ("0x1A + 2".toList) false) {} =
      (c1S1, c1T1, .HEX_LITERAL) ∧
    next 64 c1S1 c1T1 = (c1S2, c1T2, .PLUS) ∧
    next 64 c1S2 c1T2 = (c1S3, c1T3, .INTEGER_LITERAL) ∧
    next 64 c1S3 c1T3 = (c1S4, c1T4, .EOF) ∧
    c1T1.intValue = some 20 ∧ c1T3.intValue = some 2 ∧
    c1S4.diags = [] ∧ c1S4.fuelOutFlag = false ∧
    ¬ c1T1.intValue = some 26 :=
  ⟨rfl, rfl, rfl, rfl, rfl, rfl, rfl, rfl, by decide⟩

/-- C2: lexing `'\x41;'` yields a CHAR_LITERAL token followed by EOF, but
the token's value is 0, not 65: the hex-escape loop stores the shifted
value into the working character and immediately overwrites it with the
next read, so `r` is still 0 when readEscapeCode returns. -/
theorem c2_x_escape_payload_zero :
    next 64 (initState ("'\\x41;'".toList) false) {} =
      (c2S1, c2T1, .CHAR_LITERAL) ∧
    next 64 c2S1 c2T1 = (c2S2, c2T2, .EOF) ∧
    c2T1.charValue = some 0 ∧ c2S2.diags = [] ∧
    c2S2.fuelOutFlag = false ∧ ¬ c2T1.charValue = some 65 :=
  ⟨rfl, rfl, rfl, rfl, rfl, by decide⟩

/-- C3: scanning the malformed float `1.x` makes numberLiteral report
expected_digit_for_float and return TOK_UNKNOWN, and handleNumber's switch
then falls through to its default branch and fails assert(false) — the
branch the claim asserts is unreachable. -/
theorem c3_handleNumber_assert_reached :
    next 64 (initState ("1.x".toList) false) {} = (c3S1, c3T1, .UNKNOWN) ∧
    next 64 c3S1 c3T1 = (c3S2, c3T2, .EOF) ∧
    c3S1.assertFails = [.handleNumberDefault] ∧
    c3S1.diags.map Diag.id = [.expected_digit_for_float] ∧
    c3S2.fuelOutFlag = false :=
  ⟨rfl, rfl, rfl, rfl, rfl⟩

/-- C4: lexing `#if 0\nJUNK\n#else\nok\n#endif\n` produces exactly one
concrete token, NAME(ok), before EOF; no diagnostic is emitted, no modelled
assertion fails, and the if-stack is empty at end of file. -/
theorem c4_skip_else_flip_endif :
    next 64 (initState ("#if 0\nJUNK\n#else\nok\n#endif\n".toList) false)
        {} = (c4S1, c4T1, .NONE) ∧
    next 64 c4S1 c4T1 = (c4S2, c4T2, .NAME) ∧
    next 64 c4S2 c4T2 = (c4S3, c4T3, .NONE) ∧
    next 64 c4S3 c4T3 = (c4S4, c4T4, .EOF) ∧
    c4T2.atom = some ("ok".toList) ∧
    c4S4.diags = [] ∧ c4S4.ifstack = [] ∧ c4S4.assertFails = [] ∧
    c4S4.fuelOutFlag = false :=
  ⟨rfl, rfl, rfl, rfl, rfl, rfl, rfl, rfl, rfl⟩

/-- C5 counterexample: on `#endif "a` + newline, the unterminated string
scanned during chewLineAfterDirective's suppressed line-chew still delivers
unterminated_string to the reporter — stringLiteral reports through
cc_.report, bypassing the suppress_errors gate, so a diagnostic carrying
the in-suppressed-scope ghost mark reaches the diagnostic stream. -/
theorem c5_suppressed_scope_diag_delivered :
    next 64 (initState ("#endif \"a\n".toList) false) {} =
      (c5aS1, c5aT1, .NONE) ∧
    next 64 c5aS1 c5aT1 = (c5aS2, c5aT2, .EOF) ∧
    c5aS2.diags.map (fun d => (d.id, d.channel, d.inSuppressedScope)) =
      [(.endif_without_if, .viaReport, false),
       (.unterminated_string, .viaCC, true)] ∧
    (c5aS2.diags.filter (fun d => d.inSuppressedScope)).length = 1 ∧
    c5aS2.fuelOutFlag = false :=
  ⟨rfl, rfl, rfl, rfl, rfl⟩

/-- C5 amended: while suppress_errors is true, a diagnostic issued through
the Lexer::report wrapper is discarded (for any state, location and id) —
concretely, the report-routed bad_char_terminator scanned during the
suppressed chew of `#endif 'a"` never reaches the diagnostic stream — but
error paths that call cc_.report directly, such as stringLiteral's
unterminated_string, are still delivered even from inside that scope. -/
theorem c5_amended_only_wrapper_suppressed (s : LexState) (loc : Loc)
    (id : MsgId) (h : s.suppressErrors = true) :
    LexState.report s loc id = s ∧
    (next 64 (initState ("#endif 'a\"\n".toList) false) {} =
      (c5bS1, c5bT1, .NONE) ∧
     c5bS1.diags.map Diag.id = [.endif_without_if]) ∧
    c5aS2.diags.map (fun d => (d.id, d.inSuppressedScope)) =
      [(.endif_without_if, false), (.unterminated_string, true)] := by
  refine ⟨?_, ⟨rfl, rfl⟩, rfl⟩
  simp [LexState.report, h]

/-- C5 amended, witness: the wrapper discards a bad_char_terminator for a
concrete suppressed state. -/
theorem c5_amended_only_wrapper_suppressed_witness :
    ({ initState [] false with suppressErrors := true } :
        LexState).suppressErrors = true ∧
    (LexState.report { initState [] false with suppressErrors := true }
        (some 0) .bad_char_terminator =
      { initState [] false with suppressErrors := true } ∧
    (next 64 (initState ("#endif 'a\"\n".toList) false) {} =
      (c5bS1, c5bT1, .NONE) ∧
     c5bS1.diags.map Diag.id = [.endif_without_if]) ∧
    c5aS2.diags.map (fun d => (d.id, d.inSuppressedScope)) =
      [(.endif_without_if, false), (.unterminated_string, true)]) :=
  ⟨rfl, c5_amended_only_wrapper_suppressed
    { initState [] false with suppressErrors := true }
    (some 0) .bad_char_terminator rfl⟩

/-- C6: with comment tracing on, after `x // a` the tail-comment loop runs
while scan produces NON-comment tokens: on `x // a\ny\n// b\nz\n` the
second token delivered after x is z — the token NAME(y) is swallowed inside
the tail block and never delivered — and the loop stops only at the next
comment, committing the Tail range (bytes 2..6) of the first comment alone.
This refutes the claim that the block consumes no non-comment tokens. -/
theorem c6_tail_block_consumes_tokens :
    next 64 (initState ("x // a\ny\n// b\nz\n".toList) true) {} =
      (c6S1, c6T1, .NAME) ∧
    next 64 c6S1 c6T1 = (c6S2, c6T2, .NAME) ∧
    next 64 c6S2 c6T2 = (c6S3, c6T3, .EOF) ∧
    c6T1.atom = some ("x".toList) ∧ c6T2.atom = some ("z".toList) ∧
    c6S3.comments = [(.Tail, some 2, some 6)] ∧
    c6S3.assertFails = [] ∧ c6S3.fuelOutFlag = false ∧
    ¬ c6T2.atom = some ("y".toList) :=
  ⟨rfl, rfl, rfl, rfl, rfl, rfl, rfl, rfl, by decide⟩

/-- C7: on `#if 1\n#else\n#else\n#endif\n` the second hash-else is seen by
the inactive-region engine, which reports else_declared_twice and then
still overwrites the context's elseloc (and re-assigns its state): the
ghost trace records two different elseloc stores for the single context,
refuting the at-most-once claim. -/
theorem c7_elseloc_overwritten_after_report :
    next 64 (initState ("#if 1\n#else\n#else\n#endif\n".toList) false) {} =
      (c7S1, c7T1, .NONE) ∧
    next 64 c7S1 c7T1 = (c7S2, c7T2, .NONE) ∧
    next 64 c7S2 c7T2 = (c7S3, c7T3, .EOF) ∧
    c7S3.elseWrites = [some 6, some 12] ∧
    c7S3.diags.map (fun d => (d.id, d.loc)) =
      [(.else_declared_twice, some 12)] ∧
    c7S3.ifstack = [] ∧ c7S3.elseWrites.length = 2 ∧
    c7S3.fuelOutFlag = false :=
  ⟨rfl, rfl, rfl, rfl, rfl, rfl, rfl, rfl⟩

/-- C9 counterexample: on `"a` followed by a newline the lexer reports
unterminated_string exactly once and still returns a STRING_LITERAL token,
but the token's payload is never set — the accumulated byte `a` is not
interned and the atom field stays unset, refuting the claim that the token
carries the accumulated bytes. -/
theorem c9_unterminated_string_payload_unset :
    next 64 (initState ("\"a\n".toList) false) {} =
      (c9S1, c9T1, .STRING_LITERAL) ∧
    next 64 c9S1 c9T1 = (c9S2, c9T2, .EOF) ∧
    c9S1.diags.map Diag.id = [.unterminated_string] ∧
    c9T1.atom = none ∧ c9S2.fuelOutFlag = false ∧
    ¬ c9T1.atom = some ("a".toList) :=
  ⟨rfl, rfl, rfl, rfl, rfl, by decide⟩


set_option maxRecDepth 4000

theorem getD_append_len (pre : List Char) (c : Char) (post : List Char)
    (d : Char) : (pre ++ c :: post).getD pre.length d = c := by
  induction pre with
  | nil => rfl
  | cons a t ih => simpa using ih

theorem readChar_at (pre : List Char) (c : Char) (post : List Char)
    (s : LexState) (hin : s.input = pre ++ c :: post)
    (hpos : s.pos = pre.length) :
    s.readChar = (c, { s with pos := s.pos + 1 }) := by
  have hlt : s.pos < s.input.length := by
    rw [hin, hpos]; simp
  simp only [LexState.readChar, hlt, if_true, hin, hpos]
  rw [List.getD_eq_getElem _ _ (by simp)]
  rw [List.getElem_append_right (by omega)]
  simp

theorem readChar_end (s : LexState) (hpos : s.pos ≥ s.input.length) :
    s.readChar = ('\x00', { s with pos := s.input.length + 1 }) := by
  simp [LexState.readChar, show ¬ (s.pos < s.input.length) by omega]

theorem isDigit_ne (c : Char) (h : IsDigit c = true) :
    c ≠ '\n' ∧ c ≠ '\r' ∧ c ≠ ' ' ∧ c ≠ '\t' ∧ c ≠ '\x0c' ∧ c ≠ '#' := by
  refine ⟨?_, ?_, ?_, ?_, ?_, ?_⟩ <;>
    (intro he; rw [he] at h; exact absurd h (by decide))

theorem consumeWhitespace_digit (s : LexState) (c : Char) (rest : List Char)
    (hin : s.input = c :: rest) (hpos : s.pos = 0) (hd : IsDigit c = true) :
    s.consumeWhitespace = (c, { s with pos := s.pos + 1 }) := by
  obtain ⟨h1, h2, h3, h4, h5, _⟩ := isDigit_ne c hd
  have hfuel : s.input.length + 2 = (s.input.length + 1) + 1 := by omega
  unfold LexState.consumeWhitespace
  rw [hfuel, cwLoop]
  rw [readChar_at [] c rest s (by simpa using hin) (by simpa using hpos)]
  simp [h1, h2, h3, h4, h5]


theorem numDigitsLoop_all (tl : List Char) :
    ∀ (f : Nat) (pre : List Char) (s : LexState),
      s.input = pre ++ tl → s.pos = pre.length →
      (∀ c ∈ tl, IsDigit c = true) → f ≥ tl.length + 1 →
      numDigitsLoop f s =
        ('\x00', { s with pos := s.input.length + 1,
                          literal := s.literal ++ tl }) := by
  induction tl with
  | nil =>
    intro f pre s hin hpos hdig hf
    obtain ⟨f', rfl⟩ : ∃ f', f = f' + 1 := ⟨f - 1, by omega⟩
    rw [numDigitsLoop]
    rw [readChar_end s (by rw [hin, hpos]; simp)]
    have hz : IsDigit '\x00' = false := by decide
    simp [hz]
  | cons c tl' ih =>
    intro f pre s hin hpos hdig hf
    obtain ⟨f', rfl⟩ : ∃ f', f = f' + 1 := ⟨f - 1, by omega⟩
    rw [numDigitsLoop]
    rw [readChar_at pre c tl' s hin hpos]
    have hc := hdig c (by simp)
    simp only [hc, if_true]
    rw [ih f' (pre ++ [c]) _ (by simp [hin, LexState.appendLit])
      (by simp [hpos, LexState.appendLit])
      (fun d hd => hdig d (by simp [hd])) (by simp at hf; omega)]
    simp [LexState.appendLit]


theorem numberLiteralTail_nul (s : LexState) :
    numberLiteralTail '\x00' s = ((s.unread).appendLitNul, .INTEGER_LITERAL) := by
  have hx : ¬ (s.literal.length = 1 ∧ s.literal.getD 0 ' ' = '0' ∧
      (('\x00' : Char) = 'x' ∨ ('\x00' : Char) = 'X')) := by
    rintro ⟨-, -, h⟩
    revert h
    decide
  rw [numberLiteralTail, if_neg hx, if_pos (by decide)]

theorem numberLiteral_all_digits (d : Char) (tl : List Char) (pre : List Char)
    (s : LexState) (hin : s.input = pre ++ tl) (hpos : s.pos = pre.length)
    (hdig : ∀ c ∈ tl, IsDigit c = true) :
    s.numberLiteral d =
      ({ s with pos := s.input.length, literal := d :: tl },
       .INTEGER_LITERAL) := by
  simp only [LexState.numberLiteral, LexState.clearLit, LexState.appendLit,
    List.nil_append]
  rw [numDigitsLoop_all tl (s.input.length + 2) pre { s with literal := [d] }
    (by simp [hin]) (by simp [hpos]) hdig
    (by rw [hin]; simp [List.length_append]; omega)]
  rw [numberLiteralTail_nul]
  simp [LexState.unread, LexState.appendLitNul]

theorem foldl_digits_ge (ds : List Char) :
    ∀ v : Nat, v ≤ ds.foldl (fun a c => a * 10 + (c.toNat - 48)) v := by
  induction ds with
  | nil => intro v; simp
  | cons c tl ih =>
    intro v
    have h1 : v ≤ v * 10 + (c.toNat - 48) := by omega
    exact le_trans h1 (ih (v * 10 + (c.toNat - 48)))

theorem intDecodeLoop_ok (ds : List Char) :
    ∀ (v : Nat) (loc : Loc) (s : LexState),
      (∀ c ∈ ds, IsDigit c = true) →
      ds.foldl (fun a c => a * 10 + (c.toNat - 48)) v < uint64Mod →
      intDecodeLoop ds v loc s =
        (s, ds.foldl (fun a c => a * 10 + (c.toNat - 48)) v) := by
  induction ds with
  | nil => intro v loc s hdig hlt; rfl
  | cons c tl ih =>
    intro v loc s hdig hlt
    have hc := hdig c (by simp)
    have hge := foldl_digits_ge tl (v * 10 + (c.toNat - 48))
    have hfold : (c :: tl).foldl (fun a c => a * 10 + (c.toNat - 48)) v =
        tl.foldl (fun a c => a * 10 + (c.toNat - 48))
          (v * 10 + (c.toNat - 48)) := rfl
    rw [hfold] at hlt
    have h1 : ¬ (v * 10 ≥ uint64Mod) := by omega
    have h2 : ¬ (v * 10 + (c.toNat - 48) ≥ uint64Mod) := by omega
    rw [intDecodeLoop]
    rw [hfold]
    simp only [LexState.checkAssert, hc, if_true]
    rw [if_neg h1, if_neg h2]
    exact ih (v * 10 + (c.toNat - 48)) loc s
      (fun e he => hdig e (by simp [he])) hlt


theorem handleNumber_all_digits (d : Char) (tl : List Char) (pre : List Char)
    (s : LexState) (tok : Token)
    (hin : s.input = pre ++ tl) (hpos : s.pos = pre.length)
    (hdig : ∀ c ∈ d :: tl, IsDigit c = true)
    (hval : natOfDigits (d :: tl) < uint64Mod) :
    s.handleNumber tok d =
      ({ s with pos := s.input.length, literal := d :: tl },
       { tok with intValue := some (natOfDigits (d :: tl)) },
       .INTEGER_LITERAL) := by
  simp only [LexState.handleNumber]
  rw [numberLiteral_all_digits d tl pre s hin hpos
    (fun c hc => hdig c (by simp [hc]))]
  simp only [reduceIte]
  rw [intDecodeLoop_ok (d :: tl) 0 tok.start.loc _ hdig hval]
  simp [natOfDigits]

theorem scan_unfold (f : Nat) (s : LexState) (tok : Token) :
    scan (f+1) s tok =
      (let (c, s) := s.consumeWhitespace
        if c = '#' ∧ s.lexedTokensOnLine = false then
          (enterPreprocessorDirective f s, tok, .NONE)
        else
        let tok := tok.initTok { loc := s.lastLoc, line := s.line }
        if IsDigit c then s.handleNumber tok c
        else if c = '\x00' then
          if s.lexingForDirective then (s, tok, .EOL)
          else if ppHandleEndOfFile then (s, tok, .NONE)
          else (s, tok, .EOF)
        else if c = ';' then (s, tok, .SEMICOLON)
        else if c = '{' then (s, tok, .LBRACE)
        else if c = '}' then (s, tok, .RBRACE)
        else if c = '(' then (s, tok, .LPAREN)
        else if c = ')' then (s, tok, .RPAREN)
        else if c = '[' then (s, tok, .LBRACKET)
        else if c = ']' then (s, tok, .RBRACKET)
        else if c = '~' then (s, tok, .TILDE)
        else if c = '?' then (s, tok, .QMARK)
        else if c = ':' then (s, tok, .COLON)
        else if c = ',' then (s, tok, .COMMA)
        else if c = '\r' ∨ c = '\n' then
          let s := s.checkAssert (s.lexingForDirective = true)
            .scanNewlineDirective
          (s, tok, .EOL)
        else if c = '.' then
          let (m, s) := s.matchChar '.'
          if m then
            let (m2, s) := s.matchChar '.'
            if m2 then (s, tok, .ELLIPSES)
            else ({ s with pos := s.pos - 1 }, tok, .DOT)
          else (s, tok, .DOT)
        else if c = '/' then
          let (m, s) := s.matchChar '='
          if m then (s, tok, .ASSIGN_DIV)
          else
            let (m, s) := s.matchChar '/'
            if m then s.singleLineComment tok
            else
              let (m, s) := s.matchChar '*'
              if m then s.multiLineComment tok
              else (s, tok, .SLASH)
        else if c = '*' then
          let (m, s) := s.matchChar '='
          if m then (s, tok, .ASSIGN_MUL) else (s, tok, .STAR)
        else if c = '+' then
          let (m, s) := s.matchChar '='
          if m then (s, tok, .ASSIGN_ADD)
          else
            let (m, s) := s.matchChar '+'
            if m then (s, tok, .INCREMENT) else (s, tok, .PLUS)
        else if c = '&' then
          let (m, s) := s.matchChar '='
          if m then (s, tok, .ASSIGN_BITAND)
          else
            let (m, s) := s.matchChar '&'
            if m then (s, tok, .AND) else (s, tok, .BITAND)
        else if c = '|' then
          let (m, s) := s.matchChar '='
          if m then (s, tok, .ASSIGN_BITOR)
          else
            let (m, s) := s.matchChar '|'
            if m then (s, tok, .OR) else (s, tok, .BITOR)
        else if c = '^' then
          let (m, s) := s.matchChar '='
          if m then (s, tok, .ASSIGN_BITXOR) else (s, tok, .BITXOR)
        else if c = '%' then
          let (m, s) := s.matchChar '='
          if m then (s, tok, .ASSIGN_MOD) else (s, tok, .PERCENT)
        else if c = '-' then
          let (m, s) := s.matchChar '='
          if m then (s, tok, .ASSIGN_SUB)
          else
            let (m, s) := s.matchChar '-'
            if m then (s, tok, .DECREMENT) else (s, tok, .MINUS)
        else if c = '!' then
          let (m, s) := s.matchChar '='
          if m then (s, tok, .NOTEQUALS) else (s, tok, .NOT)
        else if c = '=' then
          let (m, s) := s.matchChar '='
          if m then (s, tok, .EQUALS) else (s, tok, .ASSIGN)
        else if c = '<' then
          let (m, s) := s.matchChar '='
          if m then (s, tok, .LE)
          else
            let (m, s) := s.matchChar '<'
            if m then
              let (m2, s) := s.matchChar '='
              if m2 then (s, tok, .ASSIGN_SHL) else (s, tok, .SHL)
            else (s, tok, .LT)
        else if c = '>' then
          let (m, s) := s.matchChar '='
          if m then (s, tok, .GE)
          else
            let (m, s) := s.matchChar '>'
            if m then
              let (m2, s) := s.matchChar '>'
              if m2 then
                let (m3, s) := s.matchChar '='
                if m3 then (s, tok, .ASSIGN_USHR) else (s, tok, .USHR)
              else (s, tok, .SHR)
            else (s, tok, .GT)
        else if c = '\'' then s.charLiteral tok
        else if c = '"' then s.stringLiteral tok
        else if IsIdentStart c then s.handleIdentifier tok c
        else
          let s :=
            if ¬ s.lexingForDirective then
              s.ccReport tok.start.loc .unexpected_char
            else s
          (s, tok, .UNKNOWN)) := rfl

theorem scan_digit_path (f : Nat) (s s1 : LexState) (tok : Token) (c : Char)
    (hcw : s.consumeWhitespace = (c, s1))
    (hd : IsDigit c = true) (hhash : c ≠ '#') :
    scan (f+1) s tok =
      s1.handleNumber (tok.initTok { loc := s1.lastLoc, line := s1.line })
        c := by
  rw [scan_unfold, hcw]
  simp [hhash, hd]

theorem next_unfold (f : Nat) (s : LexState) (tok : Token) :
    next (f+1) s tok =
      (let (s, tok, k) := scan f s tok
       let tok := { tok with kind := k }
       let (s, tok) :=
         if tok.kind = TokenKind.COMMENT then
           let (s, tok) := handleComments f s tok
           (s.checkAssert (tok.kind ≠ TokenKind.COMMENT)
             AssertId.commentsAfterNext, tok)
         else (s, tok)
       let s := { s with lexedTokensOnLine := tok.kind ≠ TokenKind.NONE }
       let tok := { tok with endp := { loc := s.curLoc, line := s.line } }
       (s, tok, tok.kind)) := rfl

theorem c8_decimal_roundtrip (ds : List Char) (fuel : Nat)
    (hne : ds ≠ [])
    (hdig : ∀ c ∈ ds, IsDigit c = true)
    (hval : natOfDigits ds < 2 ^ 63) :
    (next (fuel + 2) (initState ds false) {}).2.2 =
      TokenKind.INTEGER_LITERAL ∧
    (next (fuel + 2) (initState ds false) {}).2.1.intValue =
      some (natOfDigits ds) ∧
    (next (fuel + 2) (initState ds false) {}).1.diags = [] := by
  obtain ⟨d, tl, rfl⟩ : ∃ d tl, ds = d :: tl := by
    cases ds with
    | nil => exact absurd rfl hne
    | cons a b => exact ⟨a, b, rfl⟩
  have hd := hdig d (by simp)
  have hU : natOfDigits (d :: tl) < uint64Mod := by
    have h2 : (2 : Nat) ^ 63 < uint64Mod := by norm_num [uint64Mod]
    omega
  have hcw := consumeWhitespace_digit (initState (d :: tl) false) d tl rfl
    rfl hd
  have hhash := (isDigit_ne d hd).2.2.2.2.2
  have hscan := scan_digit_path fuel (initState (d :: tl) false)
    { initState (d :: tl) false with pos := (initState (d :: tl) false).pos + 1 }
    {} d hcw hd hhash
  have hhn := handleNumber_all_digits d tl [d]
    { initState (d :: tl) false with pos := (initState (d :: tl) false).pos + 1 }
    (({} : Token).initTok
      { loc := ({ initState (d :: tl) false with
          pos := (initState (d :: tl) false).pos + 1 } : LexState).lastLoc,
        line := ({ initState (d :: tl) false with
          pos := (initState (d :: tl) false).pos + 1 } : LexState).line })
    (by simp [initState]) (by simp [initState])
    hdig hU
  rw [show fuel + 2 = (fuel + 1) + 1 from rfl, next_unfold]
  rw [hscan, hhn]
  simp [initState, Token.initTok]

theorem c8_decimal_roundtrip_witness :
    (['2', '6'] : List Char) ≠ [] ∧
    (∀ c ∈ (['2', '6'] : List Char), IsDigit c = true) ∧
    natOfDigits ['2', '6'] < 2 ^ 63 ∧
    ((next (0 + 2) (initState ['2', '6'] false) {}).2.2 =
        TokenKind.INTEGER_LITERAL ∧
     (next (0 + 2) (initState ['2', '6'] false) {}).2.1.intValue =
        some (natOfDigits ['2', '6']) ∧
     (next (0 + 2) (initState ['2', '6'] false) {}).1.diags = []) :=
  ⟨by decide, by decide, by decide,
    c8_decimal_roundtrip ['2', '6'] 0 (by decide) (by decide) (by decide)⟩

theorem stringLitLoop_unterminated (pre : List Char) :
    ∀ (f : Nat) (done rest : List Char) (t : Char) (s : LexState)
      (tok : Token),
      s.input = done ++ (pre ++ t :: rest) → s.pos = done.length →
      (t = '\r' ∨ t = '\n' ∨ t = '\x00') →
      (∀ c ∈ pre, c ≠ '"' ∧ c ≠ '\r' ∧ c ≠ '\n' ∧ c ≠ '\x00' ∧
        c ≠ '\\') →
      f ≥ pre.length + 1 →
      stringLitLoop f s tok =
        ({ s with pos := s.pos + pre.length + 1,
                  literal := s.literal ++ pre,
                  diags := s.diags ++
                    [⟨tok.start.loc, .unterminated_string, .viaCC,
                      s.suppressErrors⟩] },
         tok, .STRING_LITERAL) := by
  induction pre with
  | nil =>
    intro f done rest t s tok hin hpos ht hpre hf
    obtain ⟨f', rfl⟩ : ∃ f', f = f' + 1 := ⟨f - 1, by omega⟩
    rw [stringLitLoop]
    rw [readChar_at done t rest s (by simpa using hin) hpos]
    have hq : t ≠ '"' := by
      rcases ht with h | h | h <;> (rw [h]; decide)
    simp [hq, ht, LexState.ccReport]
  | cons c pre' ih =>
    intro f done rest t s tok hin hpos ht hpre hf
    obtain ⟨f', rfl⟩ : ∃ f', f = f' + 1 := ⟨f - 1, by omega⟩
    obtain ⟨hq, hr, hn, hz, hb⟩ := hpre c (by simp)
    rw [stringLitLoop]
    rw [readChar_at done c (pre' ++ t :: rest) s (by simpa using hin) hpos]
    have hterm : ¬ (c = '\r' ∨ c = '\n' ∨ c = '\x00') := by
      rintro (h | h | h) <;> exact absurd h (by assumption)
    simp only [hq, hterm, hb, if_false, ite_false, if_neg, not_false_iff]
    rw [ih f' (done ++ [c]) rest t _ tok (by simp [hin, LexState.appendLit])
      (by simp [hpos, LexState.appendLit])
      ht (fun e he => hpre e (by simp [he])) (by simp at hf; omega)]
    simp [LexState.appendLit, List.append_assoc]
    omega

theorem c9_amended_unterminated_no_payload (pre rest : List Char) (t : Char)
    (ht : t = '\r' ∨ t = '\n' ∨ t = '\x00')
    (hpre : ∀ c ∈ pre, c ≠ '"' ∧ c ≠ '\r' ∧ c ≠ '\n' ∧ c ≠ '\x00' ∧
      c ≠ '\\') :
    (LexState.stringLiteral
        { initState ('"' :: (pre ++ t :: rest)) false with pos := 1 }
        {}).2.2 = TokenKind.STRING_LITERAL ∧
    ((LexState.stringLiteral
        { initState ('"' :: (pre ++ t :: rest)) false with pos := 1 }
        {}).1.diags.map Diag.id) = [.unterminated_string] ∧
    (LexState.stringLiteral
        { initState ('"' :: (pre ++ t :: rest)) false with pos := 1 }
        {}).2.1.atom = none := by
  unfold LexState.stringLiteral
  rw [stringLitLoop_unterminated pre _ ['"'] rest t _ {}
    (by simp [initState, LexState.clearLit])
    (by simp [initState, LexState.clearLit]) ht hpre
    (by simp [initState, LexState.clearLit]; omega)]
  simp [initState, LexState.clearLit]

theorem c9_amended_unterminated_no_payload_witness :
    (('\n' : Char) = '\r' ∨ ('\n' : Char) = '\n' ∨
      ('\n' : Char) = '\x00') ∧
    (∀ c ∈ (['a'] : List Char), c ≠ '"' ∧ c ≠ '\r' ∧ c ≠ '\n' ∧
      c ≠ '\x00' ∧ c ≠ '\\') ∧
    ((LexState.stringLiteral
        { initState ('"' :: (['a'] ++ '\n' :: [])) false with pos := 1 }
        {}).2.2 = TokenKind.STRING_LITERAL ∧
    ((LexState.stringLiteral
        { initState ('"' :: (['a'] ++ '\n' :: [])) false with pos := 1 }
        {}).1.diags.map Diag.id) = [.unterminated_string] ∧
    (LexState.stringLiteral
        { initState ('"' :: (['a'] ++ '\n' :: [])) false with pos := 1 }
        {}).2.1.atom = none) :=
  ⟨by decide, by decide,
    c9_amended_unterminated_no_payload ['a'] [] '\n' (by decide) (by decide)⟩

theorem readEscapeCode_unknown (done : List Char) (c : Char)
    (post : List Char) (s : LexState)
    (hin : s.input = done ++ c :: post) (hpos : s.pos = done.length)
    (hc : ¬ EscapeTableChar c) (hd : IsDigit c = false) :
    s.readEscapeCode =
      (intMax,
       { s with pos := s.pos + 1,
                diags := s.diags ++ [⟨some s.pos, .unknown_escapecode,
                  .viaCC, s.suppressErrors⟩] }) := by
  simp only [EscapeTableChar, List.mem_cons, List.not_mem_nil, or_false,
    not_or] at hc
  obtain ⟨h1, h2, h3, h4, h5, h6, h7, h8, h9, h10, h11, h12, h13⟩ := hc
  unfold LexState.readEscapeCode
  rw [readChar_at done c post s hin hpos]
  simp [h1, h2, h3, h4, h5, h6, h7, h8, h9, h10, h11, h12, h13, hd,
    LexState.ccReport, LexState.lastLoc]

theorem stringLitLoop_succ (f : Nat) (s : LexState) (tok : Token) :
    stringLitLoop (f+1) s tok =
      (let (c, s) := s.readChar
       if c = '"' then
         let s := s.appendLitNul
         let tok := { tok with atom := some s.literal }
         (s, tok, TokenKind.STRING_LITERAL)
       else if c = '\r' ∨ c = '\n' ∨ c = '\x00' then
         (s.ccReport tok.start.loc .unterminated_string, tok,
           TokenKind.STRING_LITERAL)
       else if c = '\\' then
         let (code, s) := s.readEscapeCode
         let code := if code = intMax then (('?'.toNat : Int)) else code
         stringLitLoop f (s.appendLit (charOfCode code)) tok
       else
         stringLitLoop f (s.appendLit c) tok) := rfl

theorem c10_unknown_escape_sentinel (c : Char)
    (hc : ¬ EscapeTableChar c) (hd : IsDigit c = false) :
    ((LexState.charLiteral
        { initState ['\'', '\\', c, '\''] false with pos := 1 }
        {}).2.2 = TokenKind.CHAR_LITERAL ∧
     (LexState.charLiteral
        { initState ['\'', '\\', c, '\''] false with pos := 1 }
        {}).2.1.charValue = some intMax ∧
     ((LexState.charLiteral
        { initState ['\'', '\\', c, '\''] false with pos := 1 }
        {}).1.diags.map Diag.id) = [.unknown_escapecode]) ∧
    ((LexState.stringLiteral
        { initState ['"', '\\', c, '"'] false with pos := 1 }
        {}).2.2 = TokenKind.STRING_LITERAL ∧
     (LexState.stringLiteral
        { initState ['"', '\\', c, '"'] false with pos := 1 }
        {}).2.1.atom = some ['?'] ∧
     ((LexState.stringLiteral
        { initState ['"', '\\', c, '"'] false with pos := 1 }
        {}).1.diags.map Diag.id) = [.unknown_escapecode]) := by
  constructor
  · have e1 : (({ initState ['\'', '\\', c, '\''] false with pos := 1 } :
        LexState)).readChar =
        ('\\', { initState ['\'', '\\', c, '\''] false with pos := 2 }) := by
      rw [readChar_at ['\''] '\\' (c :: ['\'']) _ (by simp [initState])
        (by simp [initState])]
    have e2 : (({ initState ['\'', '\\', c, '\''] false with pos := 2 } :
        LexState)).readEscapeCode =
        (intMax,
         { initState ['\'', '\\', c, '\''] false with
              pos := 3,
              diags := [⟨some 2, .unknown_escapecode, .viaCC, false⟩] }) := by
      rw [readEscapeCode_unknown ['\'', '\\'] c ['\''] _
        (by simp [initState]) (by simp [initState]) hc hd]
      simp [initState]
    have e3 : (({ initState ['\'', '\\', c, '\''] false with
          pos := 3,
          diags := [⟨some 2, .unknown_escapecode, .viaCC, false⟩] } :
        LexState)).readChar =
        ('\'',
         { initState ['\'', '\\', c, '\''] false with
              pos := 4,
              diags := [⟨some 2, .unknown_escapecode, .viaCC, false⟩] }) := by
      rw [readChar_at ['\'', '\\', c] '\'' [] _ (by simp [initState])
        (by simp [initState])]
    simp +decide [LexState.charLiteral, e1, e2, e3]
  · have f1 : (({ initState ['"', '\\', c, '"'] false with pos := 1 } :
        LexState)).readChar =
        ('\\', { initState ['"', '\\', c, '"'] false with pos := 2 }) := by
      rw [readChar_at ['"'] '\\' (c :: ['"']) _ (by simp [initState])
        (by simp [initState])]
    have f2 : (({ initState ['"', '\\', c, '"'] false with pos := 2 } :
        LexState)).readEscapeCode =
        (intMax,
         { initState ['"', '\\', c, '"'] false with
              pos := 3,
              diags := [⟨some 2, .unknown_escapecode, .viaCC, false⟩] }) := by
      rw [readEscapeCode_unknown ['"', '\\'] c ['"'] _
        (by simp [initState]) (by simp [initState]) hc hd]
      simp [initState]
    have f3 : (({ initState ['"', '\\', c, '"'] false with
          pos := 3,
          diags := [⟨some 2, .unknown_escapecode, .viaCC, false⟩],
          literal := ['?'] } :
        LexState)).readChar =
        ('"',
         { initState ['"', '\\', c, '"'] false with
              pos := 4,
              diags := [⟨some 2, .unknown_escapecode, .viaCC, false⟩],
              literal := ['?'] }) := by
      rw [readChar_at ['"', '\\', c] '"' [] _ (by simp [initState])
        (by simp [initState])]
    have hq : charOfCode (('?'.toNat : Int)) = '?' := by decide
    unfold LexState.stringLiteral
    rw [show (({ initState ['"', '\\', c, '"'] false with pos := 1 } :
        LexState)).input.length + 2 =
        ((({ initState ['"', '\\', c, '"'] false with pos := 1 } :
        LexState)).input.length + 1) + 1 from rfl]
    rw [stringLitLoop_succ]
    rw [show (({ initState ['"', '\\', c, '"'] false with pos := 1 } :
        LexState)).clearLit =
        { initState ['"', '\\', c, '"'] false with pos := 1 } by
      simp [LexState.clearLit, initState]]
    rw [f1]
    simp +decide only [reduceIte, if_true, if_false]
    rw [f2]
    simp +decide only [reduceIte, if_true, if_false, hq]
    rw [show (({ initState ['"', '\\', c, '"'] false with
        pos := 3,
        diags := [⟨some 2, .unknown_escapecode, .viaCC, false⟩] } :
        LexState)).appendLit '?' =
        { initState ['"', '\\', c, '"'] false with
             pos := 3,
             diags := [⟨some 2, .unknown_escapecode, .viaCC, false⟩],
             literal := ['?'] } by
      simp [LexState.appendLit, initState]]
    rw [stringLitLoop_succ]
    rw [f3]
    simp +decide [initState, LexState.appendLitNul]

theorem c10_unknown_escape_sentinel_witness :
    (¬ EscapeTableChar 'q') ∧ IsDigit 'q' = false ∧
    (((LexState.charLiteral
        { initState ['\'', '\\', 'q', '\''] false with pos := 1 }
        {}).2.2 = TokenKind.CHAR_LITERAL ∧
     (LexState.charLiteral
        { initState ['\'', '\\', 'q', '\''] false with pos := 1 }
        {}).2.1.charValue = some intMax ∧
     ((LexState.charLiteral
        { initState ['\'', '\\', 'q', '\''] false with pos := 1 }
        {}).1.diags.map Diag.id) = [.unknown_escapecode]) ∧
    ((LexState.stringLiteral
        { initState ['"', '\\', 'q', '"'] false with pos := 1 }
        {}).2.2 = TokenKind.STRING_LITERAL ∧
     (LexState.stringLiteral
        { initState ['"', '\\', 'q', '"'] false with pos := 1 }
        {}).2.1.atom = some ['?'] ∧
     ((LexState.stringLiteral
        { initState ['"', '\\', 'q', '"'] false with pos := 1 }
        {}).1.diags.map Diag.id) = [.unknown_escapecode])) :=
  ⟨by decide, by decide, c10_unknown_escape_sentinel 'q' (by decide) rfl⟩

end SpV2
